import Mathlib

/-!
The proxy renderer of the multicluster observability operator.

A shallow embedding of `pkg/rendering/renderer_proxy.go`: the dispatch table
built by `newProxyRenderer`, the deployment transform `renderProxyDeployment`,
the secret transform `renderProxySecret` and the batch loop
`renderProxyTemplates`.

Conventions of the embedding.

* A Go call either returns its result tuple or panics; `Outcome` records which.
  A Go result `(v, err)` is the pair `(v, err)` with `err : Option GoError`,
  `none` standing for a nil error.  Pointers and maps that may be nil are
  `Option`s, `none` standing for nil.
* Code that may have effects (the transforms registered in the dispatch table
  and the password generator) passes an explicit world state `σ`.
* Functions of other packages and files (`mcoconfig`, `util`, the unstructured
  converter, `renderNamespace`, ...) are fields of `Env`: the development holds
  for every choice of them.
-/

namespace Rendering

/-! ## Go runtime values -/

/-- Go error values, identified with their message. -/
abbrev GoError := String

/-- Outcome of a Go call: it returns a value or it panics. -/
inductive Outcome (α : Type) where
  | returned (v : α)
  | crash

namespace Outcome

/-- Sequencing of Go statements: a panic ends the run. -/
def bind {α β : Type} (x : Outcome α) (f : α → Outcome β) : Outcome β :=
  match x with
  | returned v => f v
  | crash => crash

instance : Monad Outcome where
  pure := returned
  bind := bind

end Outcome

/-- Untyped values held by a `map[string]interface{}` document. -/
inductive Value where
  | null
  | bool (b : Bool)
  | num (n : Int)
  | str (s : String)
  | list (items : List Value)
  | map (fields : List (String × Value))

/-- The Go type `map[string]interface{}`: the content of a generic document. -/
abbrev GenericMap := List (String × Value)

/-- The index expression `m[k]` on the entries of a map. -/
def assocGet {β : Type} (k : String) : List (String × β) → Option β
  | [] => none
  | (k1, v) :: rest => if k1 = k then some v else assocGet k rest

/-- The assignment `m[k] = v` on the entries of a map. -/
def assocSet {β : Type} (k : String) (v : β) : List (String × β) → List (String × β)
  | [] => [(k, v)]
  | (k1, v1) :: rest => if k1 = k then (k, v) :: rest else (k1, v1) :: assocSet k v rest

/-- A Go map with string keys; `none` is the nil map. -/
abbrev GoMap (β : Type) := Option (List (String × β))

/-- The assignment `m[k] = v`: a panic on the nil map. -/
def mapAssign {β : Type} (m : GoMap β) (k : String) (v : β) : Outcome (GoMap β) :=
  match m with
  | none => .crash
  | some entries => .returned (some (assocSet k v entries))

/-- The index expression `m[k]`, which is also defined on the nil map. -/
def mapIndex {β : Type} (m : GoMap β) (k : String) : Option β :=
  match m with
  | none => none
  | some entries => assocGet k entries

/-- The index expression `xs[i]`: a panic when `i` is out of range. -/
def sliceIndex {α : Type} (xs : List α) (i : Nat) : Outcome α :=
  match xs.get? i with
  | some x => .returned x
  | none => .crash

/-- The statement `xs[i].field = ...`, given as an update `f` of `xs[i]`. -/
def sliceAssign {α : Type} (xs : List α) (i : Nat) (f : α → α) : Outcome (List α) :=
  match xs.get? i with
  | some x => .returned (xs.set i (f x))
  | none => .crash

/-- Dereference of a pointer: a panic on nil. -/
def deref {α : Type} (p : Option α) : Outcome α :=
  match p with
  | some x => .returned x
  | none => .crash

/-- Walk of `unstructured.NestedFieldNoCopy` along a path of field names. -/
def nestedField : Value → List String → Option Value
  | v, [] => some v
  | .map fields, k :: ks =>
    match assocGet k fields with
    | some v => nestedField v ks
    | none => none
  | _, _ :: _ => none

/-- Reading of a string field, the empty string when it is missing or no string. -/
def getNestedString (obj : GenericMap) (path : List String) : String :=
  match nestedField (.map obj) path with
  | some (.str s) => s
  | _ => ""

/-- First-occurrence replacement on character sequences. -/
def replaceFirst (old new : List Char) : List Char → List Char
  | [] => if old.isPrefixOf [] then new else []
  | c :: cs =>
    if old.isPrefixOf (c :: cs) then new ++ (c :: cs).drop old.length
    else c :: replaceFirst old new cs

/-- The call `strings.Replace(s, old, new, 1)`. -/
def stringsReplace1 (s old new : String) : String :=
  ⟨replaceFirst old.data new.data s.data⟩

/-- The conversion `[]byte(p)`: the UTF-8 bytes of a string. -/
def bytesOf (p : String) : List Nat :=
  (p.data.map (fun c => (String.utf8EncodeChar c).map (fun b => b.toNat))).flatten

/-! ## Documents -/

/-- The type `unstructured.Unstructured`. -/
structure Unstructured where
  Object : GenericMap

/-- The method `(*Unstructured).GetKind`. -/
def Unstructured.GetKind (u : Unstructured) : String :=
  getNestedString u.Object ["kind"]

/-- The method `(*Unstructured).GetName`. -/
def Unstructured.GetName (u : Unstructured) : String :=
  getNestedString u.Object ["metadata", "name"]

/-- The type `resource.Resource` of kustomize, reduced to the document it wraps. -/
structure Resource where
  kunstructured : GenericMap

/-- The method `Map` of a resource: the wrapped document. -/
def Resource.Map (res : Resource) : GenericMap := res.kunstructured

/-- The method `GetKind` of a resource. -/
def Resource.GetKind (res : Resource) : String :=
  getNestedString res.kunstructured ["kind"]

/-- The method `DeepCopy` of a resource; values carry no aliasing. -/
def Resource.DeepCopy (res : Resource) : Resource := res

/-! ## Typed objects

Only the fields the renderer reads or writes are spelled out. Each structure
carries the fields it leaves alone in `rest`. -/

/-- The type `metav1.ObjectMeta`. -/
structure ObjectMeta where
  Name : String
  Labels : GoMap String
  rest : GenericMap

/-- The type `metav1.LabelSelector`. -/
structure LabelSelector where
  MatchLabels : GoMap String
  rest : GenericMap

/-- The type `corev1.Container`. -/
structure Container where
  Name : String
  Image : String
  Args : List String
  ImagePullPolicy : String
  Resources : Value
  rest : GenericMap

/-- The type `corev1.SecretVolumeSource`. -/
structure SecretVolumeSource where
  SecretName : String
  rest : GenericMap

/-- The type `corev1.Volume`; `Secret` is a pointer. -/
structure Volume where
  Name : String
  Secret : Option SecretVolumeSource
  rest : GenericMap

/-- The type `corev1.LocalObjectReference`. -/
structure LocalObjectReference where
  Name : String

/-- The type `corev1.PodSpec`. -/
structure PodSpec where
  Containers : List Container
  Volumes : List Volume
  NodeSelector : GoMap String
  Tolerations : List Value
  ImagePullSecrets : List LocalObjectReference
  rest : GenericMap

/-- The type `corev1.PodTemplateSpec`. -/
structure PodTemplateSpec where
  ObjectMeta : ObjectMeta
  Spec : PodSpec

/-- The type `appsv1.DeploymentSpec`; `Replicas` and `Selector` are pointers. -/
structure DeploymentSpec where
  Replicas : Option Int
  Selector : Option LabelSelector
  Template : PodTemplateSpec
  rest : GenericMap

/-- The type `appsv1.Deployment`. -/
structure Deployment where
  ObjectMeta : ObjectMeta
  Spec : DeploymentSpec
  rest : GenericMap

/-- The type `corev1.Secret`. -/
structure Secret where
  ObjectMeta : ObjectMeta
  Data : GoMap (List Nat)
  rest : GenericMap

/-- The dynamic type and content of a `runtime.Object` interface value. -/
inductive K8sObj where
  | deployment (dep : Deployment)
  | secret (srt : Secret)
  | other (kind : String) (content : GenericMap)
  | nil

/-- The type `MultiClusterObservabilitySpec`, the fields left alone in `rest`. -/
structure MultiClusterObservabilitySpec where
  AdvancedConfig : Value
  NodeSelector : GoMap String
  Tolerations : List Value
  rest : GenericMap

/-- The custom resource `MultiClusterObservability` owning the rendered objects. -/
structure MultiClusterObservability where
  Name : String
  Annotations : GoMap String
  Spec : MultiClusterObservabilitySpec

/-! ## The renderer and what it calls -/

/-- The type `renderFn`: a transform of one document. -/
abbrev RenderFn (σ : Type) :=
  Resource → σ → Outcome (Option Unstructured × Option GoError) × σ

/-- The type `Renderer`, reduced to the fields the proxy renderer uses. -/
structure Renderer (σ : Type) where
  cr : MultiClusterObservability
  renderProxyFns : List (String × RenderFn σ)

/-- Functions and constants the file uses and other files define. -/
structure Env (σ : Type) where
  renderDeployments : MultiClusterObservability → RenderFn σ
  renderNamespace : MultiClusterObservability → RenderFn σ
  renderClusterRole : MultiClusterObservability → RenderFn σ
  renderClusterRoleBinding : MultiClusterObservability → RenderFn σ
  GetK8sObj : String → K8sObj
  FromUnstructured : GenericMap → K8sObj → Outcome (K8sObj × Option GoError)
  ToUnstructured : K8sObj → Outcome (GenericMap × Option GoError)
  GeneratePassword : Nat → σ → Outcome (String × Option GoError) × σ
  GetCrLabelKey : String
  GetReplicas : String → Value → Option Int
  GetImagePullPolicy : MultiClusterObservabilitySpec → String
  GetDefaultNamespace : String
  GetResources : String → Value → Value
  GetImagePullSecret : MultiClusterObservabilitySpec → String
  ReplaceImage : GoMap String → String → String → Bool × String
  RBACQueryProxy : String
  RBACQueryProxyKey : String
  OauthProxyImgRepo : String
  OauthProxyKey : String
  ServerCerts : String
  GrafanaCerts : String

/-- The placeholder `{{MCO_NAMESPACE}}` of the templates. -/
def mcoNamespaceToken : String := "\x7b\x7bMCO_NAMESPACE\x7d\x7d"

/-- The statement `v.Secret.SecretName = name`: a panic when `v.Secret` is nil. -/
def setSecretName (v : Volume) (name : String) : Outcome Volume :=
  match v.Secret with
  | none => .crash
  | some sec => .returned { v with Secret := some { sec with SecretName := name } }

/-- The loop over `spec.Volumes` (lines 95-102). -/
def renderProxyVolumes {σ : Type} (env : Env σ) : List Volume → Outcome (List Volume)
  | [] => .returned []
  | v :: vs => do
    let v ← if v.Name = "ca-certs" then setSecretName v env.ServerCerts else pure v
    let v ← if v.Name = "client-certs" then setSecretName v env.GrafanaCerts else pure v
    let vs ← renderProxyVolumes env vs
    pure (v :: vs)

/-- The statements of `renderProxyDeployment` on the typed object (lines 47-102). -/
def renderProxyDeploymentTyped {σ : Type} (env : Env σ) (r : Renderer σ)
    (dep : Deployment) : Outcome Deployment := do
  let crLabelKey := env.GetCrLabelKey
  let labels ← mapAssign dep.ObjectMeta.Labels crLabelKey r.cr.Name
  let dep := { dep with ObjectMeta := { dep.ObjectMeta with Labels := labels } }
  let selector ← deref dep.Spec.Selector
  let matchLabels ← mapAssign selector.MatchLabels crLabelKey r.cr.Name
  let dep := { dep with Spec := { dep.Spec with
    Selector := some { selector with MatchLabels := matchLabels } } }
  let podLabels ← mapAssign dep.Spec.Template.ObjectMeta.Labels crLabelKey r.cr.Name
  let dep := { dep with Spec := { dep.Spec with Template := { dep.Spec.Template with
    ObjectMeta := { dep.Spec.Template.ObjectMeta with Labels := podLabels } } } }
  let dep := { dep with Spec := { dep.Spec with
    Replicas := env.GetReplicas env.RBACQueryProxy r.cr.Spec.AdvancedConfig } }
  let spec := dep.Spec.Template.Spec
  let containers ← sliceAssign spec.Containers 0
    (fun c => { c with ImagePullPolicy := env.GetImagePullPolicy r.cr.Spec })
  let c0 ← sliceIndex containers 0
  let args0 := c0.Args.map
    (fun arg => stringsReplace1 arg mcoNamespaceToken env.GetDefaultNamespace)
  let containers ← sliceAssign containers 0 (fun c => { c with Args := args0 })
  let containers ← sliceAssign containers 0
    (fun c => { c with Resources := env.GetResources env.RBACQueryProxy r.cr.Spec.AdvancedConfig })
  let containers ← sliceAssign containers 1
    (fun c => { c with ImagePullPolicy := env.GetImagePullPolicy r.cr.Spec })
  let c1 ← sliceIndex containers 1
  let args1 := c1.Args.map
    (fun arg => stringsReplace1 arg mcoNamespaceToken env.GetDefaultNamespace)
  let containers ← sliceAssign containers 1 (fun c => { c with Args := args1 })
  let spec := { spec with
    Containers := containers
    NodeSelector := r.cr.Spec.NodeSelector
    Tolerations := r.cr.Spec.Tolerations
    ImagePullSecrets := [{ Name := env.GetImagePullSecret r.cr.Spec }] }
  let c0 ← sliceIndex spec.Containers 0
  let (found, image) := env.ReplaceImage r.cr.Annotations c0.Image env.RBACQueryProxyKey
  let containers ←
    if found then sliceAssign spec.Containers 0 (fun c => { c with Image := image })
    else pure spec.Containers
  let containers ← sliceAssign containers 0
    (fun c => { c with Image := "blue0/rbac-query-proxy:2.3.0" })
  let (found, image) := env.ReplaceImage none env.OauthProxyImgRepo env.OauthProxyKey
  let containers ←
    if found then sliceAssign containers 1 (fun c => { c with Image := image })
    else pure containers
  let volumes ← renderProxyVolumes env spec.Volumes
  let spec := { spec with Containers := containers, Volumes := volumes }
  pure { dep with Spec := { dep.Spec with Template := { dep.Spec.Template with Spec := spec } } }

/-- The method `renderProxyDeployment` (lines 36-110). -/
def renderProxyDeployment {σ : Type} (env : Env σ) (r : Renderer σ) : RenderFn σ :=
  fun res s =>
  match env.renderDeployments r.cr res s with
  | (.crash, s1) => (.crash, s1)
  | (.returned (_, some err), s1) => (.returned (none, some err), s1)
  | (.returned (none, none), s1) => (.crash, s1)
  | (.returned (some u, none), s1) =>
    let obj := env.GetK8sObj u.GetKind
    match env.FromUnstructured u.Object obj with
    | .crash => (.crash, s1)
    | .returned (_, some err) => (.returned (none, some err), s1)
    | .returned (obj, none) =>
      match obj with
      | .deployment dep =>
        match renderProxyDeploymentTyped env r dep with
        | .crash => (.crash, s1)
        | .returned dep =>
          match env.ToUnstructured (.deployment dep) with
          | .crash => (.crash, s1)
          | .returned (_, some err) => (.returned (none, some err), s1)
          | .returned (unstructuredObj, none) =>
            (.returned (some { Object := unstructuredObj }, none), s1)
      | _ => (.crash, s1)

/-- The method `renderProxySecret` (lines 112-138). -/
def renderProxySecret {σ : Type} (env : Env σ) (r : Renderer σ) : RenderFn σ :=
  fun res s =>
  match env.renderNamespace r.cr res s with
  | (.crash, s1) => (.crash, s1)
  | (.returned (_, some err), s1) => (.returned (none, some err), s1)
  | (.returned (none, none), s1) => (.crash, s1)
  | (.returned (some u, none), s1) =>
    if u.GetName = "rbac-proxy-cookie-secret" then
      let obj := env.GetK8sObj u.GetKind
      match env.FromUnstructured u.Object obj with
      | .crash => (.crash, s1)
      | .returned (_, some err) => (.returned (none, some err), s1)
      | .returned (obj, none) =>
        match obj with
        | .secret srt =>
          match env.GeneratePassword 16 s1 with
          | (.crash, s2) => (.crash, s2)
          | (.returned (_, some err), s2) => (.returned (none, some err), s2)
          | (.returned (p, none), s2) =>
            match mapAssign srt.Data "session_secret" (bytesOf p) with
            | .crash => (.crash, s2)
            | .returned data =>
              match env.ToUnstructured (.secret { srt with Data := data }) with
              | .crash => (.crash, s2)
              | .returned (_, some err) => (.returned (none, some err), s2)
              | .returned (unstructuredObj, none) =>
                (.returned (some { Object := unstructuredObj }, none), s2)
        | _ => (.crash, s1)
    else (.returned (some u, none), s1)

/-- The method `newProxyRenderer` (lines 20-34): it installs the dispatch table. -/
def newProxyRenderer {σ : Type} (env : Env σ) (r : Renderer σ) : Renderer σ :=
  { r with renderProxyFns := [
      ("Deployment", renderProxyDeployment env r),
      ("Service", env.renderNamespace r.cr),
      ("ServiceAccount", env.renderNamespace r.cr),
      ("ConfigMap", env.renderNamespace r.cr),
      ("ClusterRole", env.renderClusterRole r.cr),
      ("ClusterRoleBinding", env.renderClusterRoleBinding r.cr),
      ("Secret", renderProxySecret env r),
      ("Role", env.renderNamespace r.cr),
      ("RoleBinding", env.renderNamespace r.cr),
      ("Ingress", env.renderNamespace r.cr),
      ("PersistentVolumeClaim", env.renderNamespace r.cr)] }

/-- The loop of `renderProxyTemplates` (lines 142-157), `uobjs` the slice built so far. -/
def renderProxyTemplatesFrom {σ : Type} (r : Renderer σ) :
    List Resource → List Unstructured → σ →
      Outcome (List Unstructured × Option GoError) × σ
  | [], uobjs, s => (.returned (uobjs, none), s)
  | template :: templates, uobjs, s =>
    match assocGet template.GetKind r.renderProxyFns with
    | none =>
      renderProxyTemplatesFrom r templates (uobjs ++ [{ Object := template.Map }]) s
    | some render =>
      match render template.DeepCopy s with
      | (.crash, s1) => (.crash, s1)
      | (.returned (_, some err), s1) => (.returned ([], some err), s1)
      | (.returned (none, none), s1) => renderProxyTemplatesFrom r templates uobjs s1
      | (.returned (some uobj, none), s1) =>
        renderProxyTemplatesFrom r templates (uobjs ++ [uobj]) s1

/-- The method `renderProxyTemplates` (lines 140-160). -/
def renderProxyTemplates {σ : Type} (r : Renderer σ) (templates : List Resource) (s : σ) :
    Outcome (List Unstructured × Option GoError) × σ :=
  renderProxyTemplatesFrom r templates [] s

/-! ## What the deployment transform leaves behind, in closed form -/

/-- Container 0 after the transform. -/
def renderedContainer0 {σ : Type} (env : Env σ) (r : Renderer σ) (c : Container) : Container :=
  { c with
    ImagePullPolicy := env.GetImagePullPolicy r.cr.Spec
    Args := c.Args.map
      (fun arg => stringsReplace1 arg mcoNamespaceToken env.GetDefaultNamespace)
    Resources := env.GetResources env.RBACQueryProxy r.cr.Spec.AdvancedConfig
    Image := "blue0/rbac-query-proxy:2.3.0" }

/-- Container 1 after the transform. -/
def renderedContainer1 {σ : Type} (env : Env σ) (r : Renderer σ) (c : Container) : Container :=
  { c with
    ImagePullPolicy := env.GetImagePullPolicy r.cr.Spec
    Args := c.Args.map
      (fun arg => stringsReplace1 arg mcoNamespaceToken env.GetDefaultNamespace)
    Image :=
      if (env.ReplaceImage none env.OauthProxyImgRepo env.OauthProxyKey).1
      then (env.ReplaceImage none env.OauthProxyImgRepo env.OauthProxyKey).2
      else c.Image }

/-- One volume after the loop over the volumes, when the loop does not panic. -/
def renderedVolume {σ : Type} (env : Env σ) (v : Volume) : Volume :=
  if v.Name = "ca-certs" then
    { v with Secret := v.Secret.map (fun sec => { sec with SecretName := env.ServerCerts }) }
  else if v.Name = "client-certs" then
    { v with Secret := v.Secret.map (fun sec => { sec with SecretName := env.GrafanaCerts }) }
  else v

/-- The container list after the transform, which indexes containers 0 and 1. -/
def renderedContainers {σ : Type} (env : Env σ) (r : Renderer σ) :
    List Container → List Container
  | c0 :: c1 :: cs => renderedContainer0 env r c0 :: renderedContainer1 env r c1 :: cs
  | cs => cs

/-- The typed deployment after the transform, when the transform does not panic. -/
def renderedDeployment {σ : Type} (env : Env σ) (r : Renderer σ) (dep : Deployment) :
    Deployment :=
  { ObjectMeta := { dep.ObjectMeta with
      Labels := dep.ObjectMeta.Labels.map (assocSet env.GetCrLabelKey r.cr.Name) }
    Spec :=
      { Replicas := env.GetReplicas env.RBACQueryProxy r.cr.Spec.AdvancedConfig
        Selector := dep.Spec.Selector.map (fun sel => { sel with
          MatchLabels := sel.MatchLabels.map (assocSet env.GetCrLabelKey r.cr.Name) })
        Template :=
          { ObjectMeta := { dep.Spec.Template.ObjectMeta with
              Labels := dep.Spec.Template.ObjectMeta.Labels.map
                (assocSet env.GetCrLabelKey r.cr.Name) }
            Spec :=
              { Containers := renderedContainers env r dep.Spec.Template.Spec.Containers
                Volumes := dep.Spec.Template.Spec.Volumes.map (renderedVolume env)
                NodeSelector := r.cr.Spec.NodeSelector
                Tolerations := r.cr.Spec.Tolerations
                ImagePullSecrets := [{ Name := env.GetImagePullSecret r.cr.Spec }]
                rest := dep.Spec.Template.Spec.rest } }
        rest := dep.Spec.rest }
    rest := dep.rest }

/-- No volume named `ca-certs` or `client-certs` lacks its secret source. -/
def volumesReady (vs : List Volume) : Prop :=
  ∀ v ∈ vs, (v.Name = "ca-certs" ∨ v.Name = "client-certs") → v.Secret ≠ none

/-- The typed deployment has every map, pointer and slice element the transform writes to. -/
def deploymentReady (dep : Deployment) : Prop :=
  dep.ObjectMeta.Labels ≠ none ∧
  (dep.Spec.Selector.bind (fun sel => sel.MatchLabels)) ≠ none ∧
  dep.Spec.Template.ObjectMeta.Labels ≠ none ∧
  2 ≤ dep.Spec.Template.Spec.Containers.length ∧
  volumesReady dep.Spec.Template.Spec.Volumes

instance decidableNeNone {α : Type} (o : Option α) : Decidable (o ≠ none) :=
  match o with
  | none => isFalse (fun h => h rfl)
  | some _ => isTrue (fun h => Option.noConfusion h)

instance (vs : List Volume) : Decidable (volumesReady vs) := by
  unfold volumesReady
  infer_instance

instance (dep : Deployment) : Decidable (deploymentReady dep) := by
  unfold deploymentReady
  infer_instance

/-- The three label maps of a deployment: object, selector, pod template. -/
def labelMaps (dep : Deployment) : GoMap String × Option (GoMap String) × GoMap String :=
  (dep.ObjectMeta.Labels, dep.Spec.Selector.map (fun sel => sel.MatchLabels),
    dep.Spec.Template.ObjectMeta.Labels)

/-! ## A concrete environment

A small converter between documents and typed objects, and fixed answers for
the configuration lookups. The world state counts the passwords generated. -/

namespace Demo

/-- A string map as a document value. -/
def encodeStrings (m : List (String × String)) : Value :=
  .map (m.map (fun p => (p.1, .str p.2)))

/-- The string entries of a document map; entries that are no strings are dropped. -/
def decodeStrings : List (String × Value) → List (String × String)
  | [] => []
  | (k, .str v) :: rest => (k, v) :: decodeStrings rest
  | _ :: rest => decodeStrings rest

/-- A Go map under `key`; the nil map leaves the key out. -/
def encodeGoMap (key : String) (m : GoMap String) : GenericMap :=
  match m with
  | none => []
  | some entries => [(key, encodeStrings entries)]

/-- The Go map under `key`; nil when the key is missing. -/
def decodeGoMap (key : String) (fields : GenericMap) : GoMap String :=
  match assocGet key fields with
  | some (.map entries) => some (decodeStrings entries)
  | _ => none

/-- The fields whose key is none of `keys`. -/
def without (keys : List String) (fields : GenericMap) : GenericMap :=
  fields.filter (fun p => !keys.contains p.1)

/-- The fields of a value that is a map, none otherwise. -/
def fieldsOf : Value → GenericMap
  | .map fields => fields
  | _ => []

/-- The items of a value that is a list, none otherwise. -/
def itemsOf : Option Value → List Value
  | some (.list items) => items
  | _ => []

/-- The strings among a list of values. -/
def stringsOf : List Value → List String
  | [] => []
  | .str s :: rest => s :: stringsOf rest
  | _ :: rest => stringsOf rest

def encodeObjectMeta (m : ObjectMeta) : Value :=
  .map ([("name", .str m.Name)] ++ encodeGoMap "labels" m.Labels ++ m.rest)

def decodeObjectMeta (v : Option Value) : ObjectMeta :=
  let fields := fieldsOf (v.getD .null)
  { Name := getNestedString fields ["name"]
    Labels := decodeGoMap "labels" fields
    rest := without ["name", "labels"] fields }

def encodeContainer (c : Container) : Value :=
  .map ([("name", .str c.Name), ("image", .str c.Image),
    ("args", .list (c.Args.map .str)), ("imagePullPolicy", .str c.ImagePullPolicy),
    ("resources", c.Resources)] ++ c.rest)

def decodeContainer (v : Value) : Container :=
  let fields := fieldsOf v
  { Name := getNestedString fields ["name"]
    Image := getNestedString fields ["image"]
    Args := stringsOf (itemsOf (assocGet "args" fields))
    ImagePullPolicy := getNestedString fields ["imagePullPolicy"]
    Resources := (assocGet "resources" fields).getD (.map [])
    rest := without ["name", "image", "args", "imagePullPolicy", "resources"] fields }

def encodeVolume (v : Volume) : Value :=
  .map ([("name", .str v.Name)] ++
    (match v.Secret with
      | none => []
      | some sec => [("secret", .map (("secretName", .str sec.SecretName) :: sec.rest))]) ++
    v.rest)

def decodeVolume (v : Value) : Volume :=
  let fields := fieldsOf v
  { Name := getNestedString fields ["name"]
    Secret :=
      match assocGet "secret" fields with
      | some (.map sec) =>
        some { SecretName := getNestedString sec ["secretName"], rest := without ["secretName"] sec }
      | _ => none
    rest := without ["name", "secret"] fields }

def encodePodSpec (p : PodSpec) : Value :=
  .map ([("containers", .list (p.Containers.map encodeContainer)),
    ("volumes", .list (p.Volumes.map encodeVolume))] ++
    encodeGoMap "nodeSelector" p.NodeSelector ++
    [("tolerations", .list p.Tolerations),
     ("imagePullSecrets", .list (p.ImagePullSecrets.map (fun l => .map [("name", .str l.Name)])))] ++
    p.rest)

def decodePodSpec (v : Option Value) : PodSpec :=
  let fields := fieldsOf (v.getD .null)
  { Containers := (itemsOf (assocGet "containers" fields)).map decodeContainer
    Volumes := (itemsOf (assocGet "volumes" fields)).map decodeVolume
    NodeSelector := decodeGoMap "nodeSelector" fields
    Tolerations := itemsOf (assocGet "tolerations" fields)
    ImagePullSecrets := (itemsOf (assocGet "imagePullSecrets" fields)).map
      (fun l => { Name := getNestedString (fieldsOf l) ["name"] })
    rest := without ["containers", "volumes", "nodeSelector", "tolerations", "imagePullSecrets"]
      fields }

def encodeDeployment (d : Deployment) : GenericMap :=
  [("kind", .str "Deployment"),
   ("metadata", encodeObjectMeta d.ObjectMeta),
   ("spec", .map (
      (match d.Spec.Replicas with
        | none => []
        | some n => [("replicas", .num n)]) ++
      (match d.Spec.Selector with
        | none => []
        | some sel => [("selector", .map (encodeGoMap "matchLabels" sel.MatchLabels ++ sel.rest))]) ++
      [("template", .map [("metadata", encodeObjectMeta d.Spec.Template.ObjectMeta),
        ("spec", encodePodSpec d.Spec.Template.Spec)])] ++
      d.Spec.rest))] ++ d.rest

def decodeDeployment (m : GenericMap) : Deployment :=
  let spec := fieldsOf ((assocGet "spec" m).getD .null)
  let template := fieldsOf ((assocGet "template" spec).getD .null)
  { ObjectMeta := decodeObjectMeta (assocGet "metadata" m)
    Spec :=
      { Replicas :=
          match assocGet "replicas" spec with
          | some (.num n) => some n
          | _ => none
        Selector :=
          match assocGet "selector" spec with
          | some (.map sel) =>
            some { MatchLabels := decodeGoMap "matchLabels" sel, rest := without ["matchLabels"] sel }
          | _ => none
        Template :=
          { ObjectMeta := decodeObjectMeta (assocGet "metadata" template)
            Spec := decodePodSpec (assocGet "spec" template) }
        rest := without ["replicas", "selector", "template"] spec }
    rest := without ["kind", "metadata", "spec"] m }

/-- The entries of a secret, each value the list of its bytes. -/
def encodeData (entries : List (String × List Nat)) : Value :=
  .map (entries.map (fun p => (p.1, .list (p.2.map (fun b => .num b)))))

/-- The bytes among a list of values. -/
def bytesIn : List Value → List Nat
  | [] => []
  | .num n :: rest => n.toNat :: bytesIn rest
  | _ :: rest => bytesIn rest

def decodeData : List (String × Value) → List (String × List Nat)
  | [] => []
  | (k, .list items) :: rest => (k, bytesIn items) :: decodeData rest
  | _ :: rest => decodeData rest

def encodeSecret (srt : Secret) : GenericMap :=
  [("kind", .str "Secret"), ("metadata", encodeObjectMeta srt.ObjectMeta)] ++
    (match srt.Data with
      | none => []
      | some entries => [("data", encodeData entries)]) ++
    srt.rest

def decodeSecret (m : GenericMap) : Secret :=
  { ObjectMeta := decodeObjectMeta (assocGet "metadata" m)
    Data :=
      match assocGet "data" m with
      | some (.map entries) => some (decodeData entries)
      | _ => none
    rest := without ["kind", "metadata", "data"] m }

/-- The empty typed object registered for a kind, nil for an unregistered kind. -/
def getK8sObj (kind : String) : K8sObj :=
  if kind = "Deployment" then .deployment (decodeDeployment [])
  else if kind = "Secret" then .secret (decodeSecret [])
  else .nil

/-- The field `spec` of the document is missing or is a map. -/
def specShaped (m : GenericMap) : Bool :=
  match assocGet "spec" m with
  | none => true
  | some (.map _) => true
  | _ => false

/-- The converter into the typed object `obj`: an error on the nil object and on a
deployment document whose `spec` is no map. -/
def fromUnstructured (m : GenericMap) (obj : K8sObj) : Outcome (K8sObj × Option GoError) :=
  match obj with
  | .deployment _ =>
    if specShaped m then .returned (.deployment (decodeDeployment m), none)
    else .returned (obj, some "cannot restore struct from: string")
  | .secret _ => .returned (.secret (decodeSecret m), none)
  | .other kind _ => .returned (.other kind m, none)
  | .nil => .returned (.nil, some "FromUnstructured requires a non-nil pointer to an object")

/-- The converter back into a document. -/
def toUnstructured (obj : K8sObj) : Outcome (GenericMap × Option GoError) :=
  match obj with
  | .deployment dep => .returned (encodeDeployment dep, none)
  | .secret srt => .returned (encodeSecret srt, none)
  | .other _ content => .returned (content, none)
  | .nil => .returned ([], some "ToUnstructured requires a non-nil pointer to an object")

/-- A transform that emits nothing: it returns the nil document and the nil error. -/
def elide : RenderFn Nat :=
  fun _ s => (.returned (none, none), s)

/-- A transform that wraps the document of the resource and changes nothing. -/
def wrap : RenderFn Nat :=
  fun res s => (.returned (some { Object := res.Map }, none), s)

/-- The image override: the annotation `mco-<component>-image`, when it is there. -/
def replaceImage (annotations : GoMap String) (_imageRepo componentName : String) :
    Bool × String :=
  match mapIndex annotations ("mco-" ++ componentName ++ "-image") with
  | some image => (true, image)
  | none => (false, "")

/-- The environment: the world state counts the calls of the password generator. -/
def env : Env Nat where
  renderDeployments := fun _ => wrap
  renderNamespace := fun _ => wrap
  renderClusterRole := fun _ => wrap
  renderClusterRoleBinding := fun _ => elide
  GetK8sObj := getK8sObj
  FromUnstructured := fromUnstructured
  ToUnstructured := toUnstructured
  GeneratePassword := fun n calls => (.returned (⟨List.replicate n 'p'⟩, none), calls + 1)
  GetCrLabelKey := "observability.open-cluster-management.io/name"
  GetReplicas := fun _ _ => some 2
  GetImagePullPolicy := fun _ => "Always"
  GetDefaultNamespace := "open-cluster-management-observability"
  GetResources := fun _ _ => .map [("requests", .map [("cpu", .str "20m")])]
  GetImagePullSecret := fun _ => "multiclusterhub-operator-pull-secret"
  ReplaceImage := replaceImage
  RBACQueryProxy := "rbac-query-proxy"
  RBACQueryProxyKey := "rbac_query_proxy"
  OauthProxyImgRepo := "quay.io/open-cluster-management"
  OauthProxyKey := "oauth_proxy"
  ServerCerts := "observability-server-certs"
  GrafanaCerts := "observability-grafana-certs"

/-- A custom resource named `observability`, with an image override for the proxy. -/
def cr : MultiClusterObservability where
  Name := "observability"
  Annotations := some [("mco-rbac_query_proxy-image", "quay.io/custom/rbac-query-proxy:test")]
  Spec := { AdvancedConfig := .null, NodeSelector := none, Tolerations := [], rest := [] }

/-- The renderer for `cr`, its dispatch table installed. -/
def renderer : Renderer Nat :=
  newProxyRenderer env { cr := cr, renderProxyFns := [] }

/-- A container of the template. -/
def container (name image : String) (args : List String) : Value :=
  .map [("name", .str name), ("image", .str image), ("args", .list (args.map .str))]

/-- A deployment template with the given fields of the pod specification. -/
def deploymentTemplateOf (podSpec : GenericMap) : Resource where
  kunstructured :=
    [("kind", .str "Deployment"),
     ("metadata", .map [("name", .str "rbac-query-proxy"),
        ("labels", .map [("app", .str "rbac-query-proxy")])]),
     ("spec", .map [
        ("selector", .map [("matchLabels", .map [("app", .str "rbac-query-proxy")])]),
        ("template", .map [
          ("metadata", .map [("labels", .map [("app", .str "rbac-query-proxy")])]),
          ("spec", .map podSpec)])])]

/-- A deployment template with the given containers and volumes. -/
def deploymentTemplate (containers volumes : List Value) : Resource :=
  deploymentTemplateOf [("containers", .list containers), ("volumes", .list volumes)]

def proxyContainer : Value :=
  container "rbac-query-proxy" "quay.io/open-cluster-management/rbac-query-proxy:2.2.0"
    ["--listen-address=0.0.0.0:8080",
     "--metrics-server=https://observatorium.\x7b\x7bMCO_NAMESPACE\x7d\x7d.svc:8080"]

def oauthContainer : Value :=
  container "oauth-proxy" "quay.io/open-cluster-management/origin-oauth-proxy:2.0.12"
    ["--provider=openshift", "--openshift-sar=\x7b\x7bMCO_NAMESPACE\x7d\x7d"]

def extraContainer : Value :=
  container "extra" "quay.io/example/extra:1.0" ["--namespace=\x7b\x7bMCO_NAMESPACE\x7d\x7d"]

def secretVolume (name secretName : String) : Value :=
  .map [("name", .str name), ("secret", .map [("secretName", .str secretName)])]

/-- A template with two containers, the two certificate volumes and one more volume. -/
def template : Resource :=
  deploymentTemplate [proxyContainer, oauthContainer]
    [secretVolume "ca-certs" "placeholder", secretVolume "client-certs" "placeholder",
     secretVolume "other" "kept"]

/-- A template with a third container. -/
def templateThree : Resource :=
  deploymentTemplate [proxyContainer, oauthContainer, extraContainer] []

/-- A template whose pod specification has no container list. -/
def templateNone : Resource :=
  deploymentTemplateOf [("serviceAccountName", .str "rbac-query-proxy")]

/-- A template with one container. -/
def templateOne : Resource :=
  deploymentTemplate [proxyContainer] []

/-- A secret template of the given name. -/
def secretTemplate (name : String) : Resource where
  kunstructured :=
    [("kind", .str "Secret"), ("metadata", .map [("name", .str name)]),
     ("data", .map [])]

/-- A deployment document whose `spec` is a string: the converter refuses it. -/
def templateMisshaped : Resource where
  kunstructured :=
    [("kind", .str "Deployment"), ("metadata", .map [("name", .str "misshaped")]),
     ("spec", .str "oops")]

/-- The typed deployment the converter reads from `template`. -/
def deployment : Deployment := decodeDeployment template.Map

/-- The document the deployment transform makes of `template`. -/
def renderedTemplate : Unstructured where
  Object := encodeDeployment (renderedDeployment env renderer deployment)

/-- The document the deployment transform makes of `templateThree`. -/
def renderedThree : Unstructured where
  Object := encodeDeployment (renderedDeployment env renderer (decodeDeployment templateThree.Map))

/-- The custom resource with an empty annotation map: no image override is found for it. -/
def crPlain : MultiClusterObservability :=
  { cr with Annotations := some [] }

/-- The renderer for `crPlain`, its dispatch table installed. -/
def rendererPlain : Renderer Nat :=
  newProxyRenderer env { cr := crPlain, renderProxyFns := [] }

/-- The document the deployment transform of `rendererPlain` makes of `template`. -/
def renderedPlain : Unstructured where
  Object := encodeDeployment (renderedDeployment env rendererPlain deployment)

/-- The typed deployment the converter reads back from `renderedTemplate`. -/
def deploymentAgain : Deployment := decodeDeployment renderedTemplate.Object

/-- The document the deployment transform makes of its own output `renderedTemplate`. -/
def renderedAgain : Unstructured where
  Object := encodeDeployment (renderedDeployment env renderer deploymentAgain)

/-- The typed secret the converter reads from the session secret template. -/
def cookieSecret : Secret := decodeSecret (secretTemplate "rbac-proxy-cookie-secret").Map

/-- The session secret after the transform: the password of the first call is stored. -/
def renderedCookie : Unstructured where
  Object := encodeSecret { cookieSecret with
    Data := some [("session_secret", bytesOf "pppppppppppppppp")] }

/-- A cluster role binding, which the environment elides. -/
def bindingTemplate : Resource where
  kunstructured := [("kind", .str "ClusterRoleBinding"), ("metadata", .map [("name", .str "b")])]

/-- A document of a kind the dispatch table does not list. -/
def unknownTemplate : Resource where
  kunstructured := [("kind", .str "Unknown"), ("metadata", .map [("name", .str "x")])]

end Demo

/-! ## The batch loop, as the specification words it -/

/-- One document of the batch: passthrough when the kind has no table entry, otherwise the
transform applied to a copy of the document. -/
def renderDocument {σ : Type} (r : Renderer σ) (template : Resource) (s : σ) :
    Outcome (Option Unstructured × Option GoError) × σ :=
  match assocGet template.GetKind r.renderProxyFns with
  | none => (.returned (some { Object := template.Map }, none), s)
  | some render => render template.DeepCopy s

/-- The input sequence mapped in order through `renderDocument`, each document in the world
state the one before it left. -/
def mapDocuments {σ : Type} (r : Renderer σ) :
    List Resource → σ → List (Outcome (Option Unstructured × Option GoError)) × σ
  | [], s => ([], s)
  | template :: templates, s =>
    ((renderDocument r template s).1 ::
        (mapDocuments r templates (renderDocument r template s).2).1,
      (mapDocuments r templates (renderDocument r template s).2).2)

/-- The document a result carries, none for a nil result. -/
def resultDocument : Outcome (Option Unstructured × Option GoError) → Option Unstructured
  | .returned (uobj, _) => uobj
  | .crash => none

/-- The result is a return with a nil error. -/
def returnedNoError : Outcome (Option Unstructured × Option GoError) → Bool
  | .returned (_, none) => true
  | _ => false

/-- The results with the nil results removed. -/
def keepDocuments (results : List (Outcome (Option Unstructured × Option GoError))) :
    List Unstructured :=
  results.filterMap resultDocument

/-! ## Lemmas on the runtime model -/

theorem assocGet_assocSet_self {β : Type} (k : String) (v : β) (m : List (String × β)) :
    assocGet k (assocSet k v m) = some v := by
  induction m with
  | nil => simp [assocSet, assocGet]
  | cons p rest ih =>
    obtain ⟨k1, v1⟩ := p
    by_cases h : k1 = k
    · simp [assocSet, assocGet, h]
    · simp [assocSet, assocGet, h, ih]

theorem assocGet_eq_none_iff {β : Type} (k : String) (m : List (String × β)) :
    assocGet k m = none ↔ k ∉ m.map Prod.fst := by
  induction m with
  | nil => simp [assocGet]
  | cons p rest ih =>
    obtain ⟨k1, v1⟩ := p
    by_cases h : k1 = k
    · simp [assocGet, h]
    · simp [assocGet, h, ih, Ne.symm h]

theorem assocSet_assocSet_self {β : Type} (k : String) (v : β) (m : List (String × β)) :
    assocSet k v (assocSet k v m) = assocSet k v m := by
  induction m with
  | nil => simp [assocSet]
  | cons p rest ih =>
    obtain ⟨k1, v1⟩ := p
    by_cases h : k1 = k
    · simp [assocSet, h]
    · simp [assocSet, h, ih]

theorem renderProxyVolumes_returned {σ : Type} (env : Env σ) (vs vs' : List Volume)
    (h : renderProxyVolumes env vs = .returned vs') :
    vs' = vs.map (renderedVolume env) ∧
      ∀ v ∈ vs, (v.Name = "ca-certs" ∨ v.Name = "client-certs") → v.Secret ≠ none := by
  induction vs generalizing vs' with
  | nil =>
    simp [renderProxyVolumes] at h
    subst h
    simp
  | cons v vs ih =>
    rcases v with ⟨name, secret, rest⟩
    cases hvs : renderProxyVolumes env vs with
    | crash =>
      by_cases h1 : name = "ca-certs" <;> by_cases h2 : name = "client-certs" <;>
        cases secret <;>
        simp [renderProxyVolumes, bind, Outcome.bind, pure, setSecretName, hvs, h1, h2] at h
    | returned ws =>
      obtain ⟨ihm, ihs⟩ := ih ws hvs
      by_cases h1 : name = "ca-certs" <;> by_cases h2 : name = "client-certs" <;>
        cases secret <;>
        simp [renderProxyVolumes, bind, Outcome.bind, pure, setSecretName, hvs, h1, h2] at h <;>
        subst h <;>
        simp_all [renderedVolume]

theorem renderProxyVolumes_of_ready {σ : Type} (env : Env σ) (vs : List Volume)
    (h : volumesReady vs) :
    renderProxyVolumes env vs = .returned (vs.map (renderedVolume env)) := by
  induction vs with
  | nil => simp [renderProxyVolumes]
  | cons v vs ih =>
    have hv := h v (List.mem_cons_self _ _)
    have hvs : volumesReady vs := fun w hw => h w (List.mem_cons_of_mem _ hw)
    rcases v with ⟨name, secret, rest⟩
    by_cases h1 : name = "ca-certs" <;> by_cases h2 : name = "client-certs" <;>
      cases secret <;>
      simp_all [renderProxyVolumes, bind, Outcome.bind, pure, setSecretName, renderedVolume]

theorem renderProxyDeploymentTyped_returned {σ : Type} (env : Env σ) (r : Renderer σ)
    (dep dep' : Deployment) (h : renderProxyDeploymentTyped env r dep = .returned dep') :
    deploymentReady dep ∧ dep' = renderedDeployment env r dep := by
  rcases dep with ⟨⟨n0, lo, rest0⟩, ⟨reps, sel, ⟨⟨n1, lt, rest1⟩, ⟨cs, vs, ns, tol, ips, rest2⟩⟩, rest3⟩,
    rest4⟩
  cases lo with
  | none => simp [renderProxyDeploymentTyped, bind, Outcome.bind, mapAssign] at h
  | some lo =>
  cases sel with
  | none => simp [renderProxyDeploymentTyped, bind, Outcome.bind, mapAssign, deref] at h
  | some sel =>
  rcases sel with ⟨ls, rest5⟩
  cases ls with
  | none => simp [renderProxyDeploymentTyped, bind, Outcome.bind, mapAssign, deref] at h
  | some ls =>
  cases lt with
  | none => simp [renderProxyDeploymentTyped, bind, Outcome.bind, mapAssign, deref] at h
  | some lt =>
  match cs with
  | [] =>
    simp [renderProxyDeploymentTyped, bind, Outcome.bind, mapAssign, deref, sliceAssign] at h
  | [c0] =>
    simp [renderProxyDeploymentTyped, bind, Outcome.bind, mapAssign, deref, sliceAssign,
      sliceIndex] at h
  | c0 :: c1 :: cs =>
    cases hv : renderProxyVolumes env vs with
    | crash =>
      cases hf0 : (env.ReplaceImage r.cr.Annotations c0.Image env.RBACQueryProxyKey).1 <;>
      cases hf1 : (env.ReplaceImage none env.OauthProxyImgRepo env.OauthProxyKey).1 <;>
      simp [renderProxyDeploymentTyped, bind, Outcome.bind, mapAssign, deref, sliceAssign,
        sliceIndex, pure, hv, hf0, hf1] at h
    | returned vs' =>
      obtain ⟨hmap, hready⟩ := renderProxyVolumes_returned env vs vs' hv
      cases hf0 : (env.ReplaceImage r.cr.Annotations c0.Image env.RBACQueryProxyKey).1 <;>
      cases hf1 : (env.ReplaceImage none env.OauthProxyImgRepo env.OauthProxyKey).1 <;>
      simp [renderProxyDeploymentTyped, bind, Outcome.bind, mapAssign, deref, sliceAssign,
        sliceIndex, pure, hv, hf0, hf1] at h <;>
      subst h <;>
      simp [deploymentReady, volumesReady, renderedDeployment, renderedContainers,
        renderedContainer0, renderedContainer1, hmap, hf0, hf1] <;>
      exact hready

theorem renderProxyDeploymentTyped_of_ready {σ : Type} (env : Env σ) (r : Renderer σ)
    (dep : Deployment) (h : deploymentReady dep) :
    renderProxyDeploymentTyped env r dep = .returned (renderedDeployment env r dep) := by
  obtain ⟨hlo, hsel, hlt, hcs, hvs⟩ := h
  have hv := renderProxyVolumes_of_ready env _ hvs
  rcases dep with ⟨⟨n0, lo, rest0⟩, ⟨reps, sel0, ⟨⟨n1, lt, rest1⟩, ⟨cs, vs, ns, tol, ips, rest2⟩⟩, rest3⟩,
    rest4⟩
  simp only at hlo hsel hlt hcs hv
  cases sel0 with
  | none => exact absurd rfl hsel
  | some sel =>
  rcases sel with ⟨ls, rest5⟩
  have hls : ls ≠ none := hsel
  match cs, hcs with
  | c0 :: c1 :: cs, _ =>
    cases lo with
    | none => exact absurd rfl hlo
    | some lo =>
    cases ls with
    | none => exact absurd rfl hls
    | some ls =>
    cases lt with
    | none => exact absurd rfl hlt
    | some lt =>
      cases hf0 : (env.ReplaceImage r.cr.Annotations c0.Image env.RBACQueryProxyKey).1 <;>
      cases hf1 : (env.ReplaceImage none env.OauthProxyImgRepo env.OauthProxyKey).1 <;>
      simp [renderProxyDeploymentTyped, bind, Outcome.bind, mapAssign, deref, sliceAssign,
        sliceIndex, pure, hv, hf0, hf1, renderedDeployment, renderedContainers,
        renderedContainer0, renderedContainer1]

theorem renderProxyDeployment_returned {σ : Type} (env : Env σ) (r : Renderer σ)
    (res : Resource) (s s' : σ) (out : Unstructured)
    (h : renderProxyDeployment env r res s = (.returned (some out, none), s')) :
    ∃ u dep, env.renderDeployments r.cr res s = (.returned (some u, none), s') ∧
      env.FromUnstructured u.Object (env.GetK8sObj u.GetKind) =
        .returned (.deployment dep, none) ∧
      deploymentReady dep ∧
      env.ToUnstructured (.deployment (renderedDeployment env r dep)) =
        .returned (out.Object, none) := by
  unfold renderProxyDeployment at h
  split at h
  · simp at h
  · simp at h
  · simp at h
  · rename_i u s1 hrd
    simp only at h
    split at h
    · simp at h
    · simp at h
    · rename_i obj hfrom
      split at h
      · rename_i dep
        split at h
        · simp at h
        · rename_i dep' htyped
          obtain ⟨hready, hdep'⟩ := renderProxyDeploymentTyped_returned env r dep dep' htyped
          subst hdep'
          split at h
          · simp at h
          · simp at h
          · rename_i o hto
            simp only [Prod.mk.injEq, Outcome.returned.injEq, Option.some.injEq, and_true] at h
            obtain ⟨hout, hs⟩ := h
            subst hout hs
            exact ⟨u, dep, hrd, hfrom, hready, hto⟩
      · simp at h

theorem renderProxyDeployment_of_ready {σ : Type} (env : Env σ) (r : Renderer σ)
    (res : Resource) (s s1 : σ) (u : Unstructured) (dep : Deployment) (o : GenericMap)
    (hrd : env.renderDeployments r.cr res s = (.returned (some u, none), s1))
    (hfrom : env.FromUnstructured u.Object (env.GetK8sObj u.GetKind) =
      .returned (.deployment dep, none))
    (hready : deploymentReady dep)
    (hto : env.ToUnstructured (.deployment (renderedDeployment env r dep)) =
      .returned (o, none)) :
    renderProxyDeployment env r res s = (.returned (some { Object := o }, none), s1) := by
  simp [renderProxyDeployment, hrd, hfrom, renderProxyDeploymentTyped_of_ready env r dep hready,
    hto]

theorem renderProxyDeploymentTyped_eq {σ : Type} (env : Env σ) (r : Renderer σ)
    (dep : Deployment) :
    renderProxyDeploymentTyped env r dep =
      if deploymentReady dep then .returned (renderedDeployment env r dep) else .crash := by
  by_cases h : deploymentReady dep
  · simp [h, renderProxyDeploymentTyped_of_ready env r dep h]
  · cases htyped : renderProxyDeploymentTyped env r dep with
    | crash => simp [h]
    | returned dep' =>
      exact absurd (renderProxyDeploymentTyped_returned env r dep dep' htyped).1 h

theorem renderProxyDeployment_crash_of_not_ready {σ : Type} (env : Env σ) (r : Renderer σ)
    (res : Resource) (s s1 : σ) (u : Unstructured) (dep : Deployment)
    (hrd : env.renderDeployments r.cr res s = (.returned (some u, none), s1))
    (hfrom : env.FromUnstructured u.Object (env.GetK8sObj u.GetKind) =
      .returned (.deployment dep, none))
    (hnot : ¬ deploymentReady dep) :
    renderProxyDeployment env r res s = (.crash, s1) := by
  cases htyped : renderProxyDeploymentTyped env r dep with
  | crash => simp [renderProxyDeployment, hrd, hfrom, htyped]
  | returned dep' =>
    exact absurd (renderProxyDeploymentTyped_returned env r dep dep' htyped).1 hnot

/-! ## Lemmas on the batch loop -/

theorem renderProxyTemplatesFrom_cons {σ : Type} (r : Renderer σ) (template : Resource)
    (templates : List Resource) (uobjs : List Unstructured) (s : σ) :
    renderProxyTemplatesFrom r (template :: templates) uobjs s =
      match renderDocument r template s with
      | (.crash, s1) => (.crash, s1)
      | (.returned (_, some err), s1) => (.returned ([], some err), s1)
      | (.returned (none, none), s1) => renderProxyTemplatesFrom r templates uobjs s1
      | (.returned (some uobj, none), s1) =>
        renderProxyTemplatesFrom r templates (uobjs ++ [uobj]) s1 := by
  cases hl : assocGet template.GetKind r.renderProxyFns with
  | none => simp [renderProxyTemplatesFrom, renderDocument, hl]
  | some render => simp only [renderProxyTemplatesFrom, renderDocument, hl]

theorem renderProxyTemplatesFrom_acc {σ : Type} (r : Renderer σ) (templates : List Resource)
    (uobjs : List Unstructured) (s : σ) :
    renderProxyTemplatesFrom r templates uobjs s =
      match renderProxyTemplatesFrom r templates [] s with
      | (.returned (out, none), s1) => (.returned (uobjs ++ out, none), s1)
      | x => x := by
  induction templates generalizing uobjs s with
  | nil => simp [renderProxyTemplatesFrom]
  | cons template templates ih =>
    rw [renderProxyTemplatesFrom_cons, renderProxyTemplatesFrom_cons]
    rcases hd : renderDocument r template s with ⟨o, s1⟩
    rcases o with ⟨uobj, err⟩ | _
    · cases err with
      | some e => simp
      | none =>
        cases uobj with
        | none => simpa using ih uobjs s1
        | some u =>
          simp only [List.nil_append]
          rw [ih (uobjs ++ [u]) s1, ih [u] s1]
          rcases renderProxyTemplatesFrom r templates [] s1 with ⟨o2, s2⟩
          rcases o2 with ⟨out, err2⟩ | _
          · cases err2 <;> simp
          · simp
    · simp

theorem renderProxyTemplatesFrom_append {σ : Type} (r : Renderer σ) (xs ys : List Resource)
    (uobjs : List Unstructured) (s : σ) :
    renderProxyTemplatesFrom r (xs ++ ys) uobjs s =
      match renderProxyTemplatesFrom r xs uobjs s with
      | (.returned (out, none), s1) => renderProxyTemplatesFrom r ys out s1
      | x => x := by
  induction xs generalizing uobjs s with
  | nil => simp [renderProxyTemplatesFrom]
  | cons template templates ih =>
    rw [List.cons_append, renderProxyTemplatesFrom_cons, renderProxyTemplatesFrom_cons]
    rcases hd : renderDocument r template s with ⟨o, s1⟩
    rcases o with ⟨uobj, err⟩ | _
    · cases err with
      | some e => simp
      | none =>
        cases uobj with
        | none => simpa using ih uobjs s1
        | some u => simpa using ih (uobjs ++ [u]) s1
    · simp

theorem mapDocuments_length {σ : Type} (r : Renderer σ) (templates : List Resource) (s : σ) :
    (mapDocuments r templates s).1.length = templates.length := by
  induction templates generalizing s with
  | nil => simp [mapDocuments]
  | cons template templates ih => simp [mapDocuments, ih]

theorem renderProxyTemplatesFrom_of_returnedNoError {σ : Type} (r : Renderer σ)
    (templates : List Resource) (uobjs : List Unstructured) (s : σ)
    (hok : ∀ o ∈ (mapDocuments r templates s).1, returnedNoError o = true) :
    renderProxyTemplatesFrom r templates uobjs s =
      (.returned (uobjs ++ keepDocuments (mapDocuments r templates s).1, none),
        (mapDocuments r templates s).2) := by
  induction templates generalizing uobjs s with
  | nil => simp [renderProxyTemplatesFrom, mapDocuments, keepDocuments]
  | cons template templates ih =>
    rw [renderProxyTemplatesFrom_cons]
    have hhead := hok (renderDocument r template s).1 (by simp [mapDocuments])
    have htail : ∀ o ∈ (mapDocuments r templates (renderDocument r template s).2).1,
        returnedNoError o = true := fun o ho => hok o (by simp [mapDocuments, ho])
    rcases hd : renderDocument r template s with ⟨o, s1⟩
    rw [hd] at hhead htail
    rcases o with ⟨uobj, err⟩ | _
    · cases err with
      | some e => simp [returnedNoError] at hhead
      | none =>
        cases uobj with
        | none =>
          simp only [mapDocuments, hd, keepDocuments, List.filterMap_cons, resultDocument]
          exact ih uobjs s1 htail
        | some u =>
          simp only [mapDocuments, hd, keepDocuments, List.filterMap_cons, resultDocument]
          rw [ih (uobjs ++ [u]) s1 htail]
          simp [keepDocuments]
    · simp [returnedNoError] at hhead

/-! ## Lemmas on first-occurrence replacement -/

theorem replaceFirst_of_not_infix (old new s : List Char) (h : ¬ old <:+: s) :
    replaceFirst old new s = s := by
  induction s with
  | nil =>
    have hne : old ≠ [] := fun he => h (he ▸ List.infix_refl _)
    cases old with
    | nil => exact absurd rfl hne
    | cons a old => simp [replaceFirst, List.isPrefixOf]
  | cons c cs ih =>
    have hpre : old.isPrefixOf (c :: cs) = false := by
      cases hp : old.isPrefixOf (c :: cs) with
      | false => rfl
      | true => exact absurd (List.isPrefixOf_iff_prefix.mp hp).isInfix h
    have htail : ¬ old <:+: cs := fun hi => h (hi.trans (List.suffix_cons c cs).isInfix)
    simp [replaceFirst, hpre, ih htail]

theorem replaceFirst_first_occurrence (old new pre post : List Char)
    (hmin : ∀ pre' post', pre ++ old ++ post = pre' ++ old ++ post' →
      pre.length ≤ pre'.length) :
    replaceFirst old new (pre ++ old ++ post) = pre ++ new ++ post := by
  induction pre with
  | nil =>
    have hp : old.isPrefixOf (old ++ post) = true :=
      List.isPrefixOf_iff_prefix.mpr (List.prefix_append _ _)
    cases hs : old ++ post with
    | nil =>
      rw [hs] at hp
      have hold : old = [] := (List.append_eq_nil.mp hs).1
      have hpost : post = [] := (List.append_eq_nil.mp hs).2
      simp [replaceFirst, hold, hpost, List.isPrefixOf]
    | cons c cs =>
      rw [hs] at hp
      simp only [List.nil_append, hs, replaceFirst, hp, if_true]
      rw [← hs, List.drop_left]
  | cons p pre ih =>
    have hpre : old.isPrefixOf (p :: (pre ++ old ++ post)) = false := by
      cases hp : old.isPrefixOf (p :: (pre ++ old ++ post)) with
      | false => rfl
      | true =>
        obtain ⟨t, ht⟩ := List.isPrefixOf_iff_prefix.mp hp
        have := hmin [] t (by simpa using ht.symm)
        simp at this
    have hmin' : ∀ pre' post', pre ++ old ++ post = pre' ++ old ++ post' →
        pre.length ≤ pre'.length := by
      intro pre' post' he
      have := hmin (p :: pre') post' (by simp [he])
      simpa using this
    have hstep : replaceFirst old new (p :: (pre ++ old ++ post)) =
        p :: replaceFirst old new (pre ++ old ++ post) := by
      rw [replaceFirst, hpre]
      rfl
    calc replaceFirst old new (p :: pre ++ old ++ post)
        = replaceFirst old new (p :: (pre ++ old ++ post)) := rfl
      _ = p :: replaceFirst old new (pre ++ old ++ post) := hstep
      _ = p :: (pre ++ new ++ post) := by rw [ih hmin']
      _ = p :: pre ++ new ++ post := rfl

theorem renderProxyTemplates_crash {σ : Type} (r : Renderer σ)
    (front back : List Resource) (template : Resource) (s s1 s2 : σ)
    (outFront : List Unstructured) (render : RenderFn σ)
    (hfront : renderProxyTemplates r front s = (.returned (outFront, none), s1))
    (hkind : assocGet template.GetKind r.renderProxyFns = some render)
    (hcrash : render template.DeepCopy s1 = (.crash, s2)) :
    renderProxyTemplates r (front ++ template :: back) s = (.crash, s2) := by
  unfold renderProxyTemplates at hfront ⊢
  rw [renderProxyTemplatesFrom_append, hfront]
  simp only
  rw [renderProxyTemplatesFrom_cons]
  simp [renderDocument, hkind, hcrash]

theorem newProxyRenderer_renderProxyFns_none {σ : Type} (env : Env σ) (r : Renderer σ)
    (kind : String) :
    assocGet kind (newProxyRenderer env r).renderProxyFns = none ↔
      kind ∉ ["Deployment", "Service", "ServiceAccount", "ConfigMap", "ClusterRole",
        "ClusterRoleBinding", "Secret", "Role", "RoleBinding", "Ingress",
        "PersistentVolumeClaim"] := by
  rw [assocGet_eq_none_iff]
  rfl

/-! ## The claims on the batch loop -/

/-- C1: a document whose kind is no key of the dispatch table `renderProxyFns` is, when
`renderProxyTemplates` succeeds, in the output with exactly the content of its input, after
the outputs of the documents in front of it and before the outputs of the documents behind
it. -/
theorem renderProxyTemplates_passthrough {σ : Type} (r : Renderer σ)
    (front back : List Resource) (template : Resource) (s s' : σ) (out : List Unstructured)
    (hkind : assocGet template.GetKind r.renderProxyFns = none)
    (h : renderProxyTemplates r (front ++ template :: back) s = (.returned (out, none), s')) :
    ∃ outFront outBack s1,
      renderProxyTemplates r front s = (.returned (outFront, none), s1) ∧
      renderProxyTemplates r back s1 = (.returned (outBack, none), s') ∧
      out = outFront ++ { Object := template.Map } :: outBack := by
  unfold renderProxyTemplates at h ⊢
  rw [renderProxyTemplatesFrom_append] at h
  rcases hfront : renderProxyTemplatesFrom r front [] s with ⟨o, s1⟩
  rw [hfront] at h
  rcases o with ⟨outFront, err⟩ | _
  · cases err with
    | some e => simp at h
    | none =>
      simp only at h
      rw [renderProxyTemplatesFrom_cons] at h
      simp only [renderDocument, hkind] at h
      rw [renderProxyTemplatesFrom_acc] at h
      rcases hback : renderProxyTemplatesFrom r back [] s1 with ⟨o2, s2⟩
      rw [hback] at h
      rcases o2 with ⟨outBack, err2⟩ | _
      · cases err2 with
        | some e => simp at h
        | none =>
          simp only [Prod.mk.injEq, Outcome.returned.injEq, and_true] at h
          obtain ⟨hout, hs⟩ := h
          subst hs
          exact ⟨outFront, outBack, s1, rfl, hback, by simp [← hout]⟩
      · simp at h
  · simp at h

theorem renderProxyTemplates_passthrough_witness :
    assocGet Demo.unknownTemplate.GetKind Demo.renderer.renderProxyFns = none ∧
    renderProxyTemplates Demo.renderer
        [Demo.template, Demo.unknownTemplate, Demo.secretTemplate "other-secret"] 0 =
      (.returned ([Demo.renderedTemplate, { Object := Demo.unknownTemplate.Map },
        { Object := (Demo.secretTemplate "other-secret").Map }], none), 0) ∧
    ∃ outFront outBack s1,
      renderProxyTemplates Demo.renderer [Demo.template] 0 = (.returned (outFront, none), s1) ∧
      renderProxyTemplates Demo.renderer [Demo.secretTemplate "other-secret"] s1 =
        (.returned (outBack, none), 0) ∧
      [Demo.renderedTemplate, { Object := Demo.unknownTemplate.Map },
          { Object := (Demo.secretTemplate "other-secret").Map }] =
        outFront ++ { Object := Demo.unknownTemplate.Map } :: outBack :=
  ⟨rfl, rfl, renderProxyTemplates_passthrough Demo.renderer [Demo.template]
    [Demo.secretTemplate "other-secret"] Demo.unknownTemplate 0 0 _ rfl rfl⟩

/-- C2: when the documents in front of a document are rendered without error and the transform
of that document returns an error, `renderProxyTemplates` returns the empty sequence and that
error, in the world state that transform left: nothing rendered before is returned and no
document behind it is transformed, whatever stands behind it. -/
theorem renderProxyTemplates_fail_fast {σ : Type} (r : Renderer σ)
    (front back : List Resource) (template : Resource) (s s1 s2 : σ)
    (outFront : List Unstructured) (render : RenderFn σ) (uobj : Option Unstructured)
    (err : GoError)
    (hfront : renderProxyTemplates r front s = (.returned (outFront, none), s1))
    (hkind : assocGet template.GetKind r.renderProxyFns = some render)
    (hfail : render template.DeepCopy s1 = (.returned (uobj, some err), s2)) :
    renderProxyTemplates r (front ++ template :: back) s = (.returned ([], some err), s2) := by
  unfold renderProxyTemplates at hfront ⊢
  rw [renderProxyTemplatesFrom_append, hfront]
  simp only
  rw [renderProxyTemplatesFrom_cons]
  simp [renderDocument, hkind, hfail]

theorem renderProxyTemplates_fail_fast_witness :
    renderProxyTemplates Demo.renderer [Demo.unknownTemplate, Demo.template] 0 =
      (.returned ([{ Object := Demo.unknownTemplate.Map }, Demo.renderedTemplate], none), 0) ∧
    renderProxyDeployment Demo.env { cr := Demo.cr, renderProxyFns := [] }
        Demo.templateMisshaped.DeepCopy 0 =
      (.returned (none, some "cannot restore struct from: string"), 0) ∧
    renderProxyTemplates Demo.renderer
        ([Demo.unknownTemplate, Demo.template] ++
          Demo.templateMisshaped :: [Demo.secretTemplate "rbac-proxy-cookie-secret"]) 0 =
      (.returned ([], some "cannot restore struct from: string"), 0) :=
  ⟨rfl, rfl, renderProxyTemplates_fail_fast Demo.renderer [Demo.unknownTemplate, Demo.template]
    [Demo.secretTemplate "rbac-proxy-cookie-secret"] Demo.templateMisshaped 0 0 0 _
    (renderProxyDeployment Demo.env { cr := Demo.cr, renderProxyFns := [] }) none
    "cannot restore struct from: string" rfl rfl rfl⟩

/-- C3: on a batch on which every transform returns with a nil error, the output of
`renderProxyTemplates` is the input sequence mapped in order through `renderDocument`
(passthrough without a table entry, otherwise the transform on a copy) with the nil results
removed; so it is a subsequence of the per-document results and no longer than the input. -/
theorem renderProxyTemplates_maps_in_order {σ : Type} (r : Renderer σ)
    (templates : List Resource) (s : σ)
    (hok : ∀ o ∈ (mapDocuments r templates s).1, returnedNoError o = true) :
    renderProxyTemplates r templates s =
        (.returned (keepDocuments (mapDocuments r templates s).1, none),
          (mapDocuments r templates s).2) ∧
      (mapDocuments r templates s).1.length = templates.length ∧
      (keepDocuments (mapDocuments r templates s).1).length ≤ templates.length ∧
      ((keepDocuments (mapDocuments r templates s).1).map some).Sublist
        ((mapDocuments r templates s).1.map resultDocument) := by
  refine ⟨?_, mapDocuments_length r templates s, ?_, ?_⟩
  · simpa [renderProxyTemplates] using
      renderProxyTemplatesFrom_of_returnedNoError r templates [] s hok
  · calc (keepDocuments (mapDocuments r templates s).1).length
        ≤ (mapDocuments r templates s).1.length := List.length_filterMap_le _ _
      _ = templates.length := mapDocuments_length r templates s
  · generalize (mapDocuments r templates s).1 = results
    induction results with
    | nil => simp [keepDocuments]
    | cons o results ih =>
      cases ho : resultDocument o with
      | none =>
        simp only [keepDocuments, List.filterMap_cons, ho, List.map_cons]
        exact List.Sublist.cons _ ih
      | some u =>
        simp only [keepDocuments, List.filterMap_cons, ho, List.map_cons]
        exact List.Sublist.cons₂ _ ih

theorem renderProxyTemplates_maps_in_order_witness :
    renderProxyTemplates Demo.renderer
        [Demo.template, Demo.bindingTemplate, Demo.unknownTemplate,
          Demo.secretTemplate "rbac-proxy-cookie-secret"] 0 =
      (.returned ([Demo.renderedTemplate, { Object := Demo.unknownTemplate.Map },
        Demo.renderedCookie], none), 1) :=
  (renderProxyTemplates_maps_in_order Demo.renderer
    [Demo.template, Demo.bindingTemplate, Demo.unknownTemplate,
      Demo.secretTemplate "rbac-proxy-cookie-secret"] 0 (by decide)).1

/-! ## Lemmas on the deployment transform -/

theorem deploymentReady_labels (dep : Deployment) (h : deploymentReady dep) :
    ∃ lo sel ls lt, dep.ObjectMeta.Labels = some lo ∧ dep.Spec.Selector = some sel ∧
      sel.MatchLabels = some ls ∧ dep.Spec.Template.ObjectMeta.Labels = some lt := by
  obtain ⟨hlo, hsel, hlt, -, -⟩ := h
  obtain ⟨lo, hlo'⟩ := Option.ne_none_iff_exists'.mp hlo
  obtain ⟨ls, hls'⟩ := Option.ne_none_iff_exists'.mp hsel
  obtain ⟨lt, hlt'⟩ := Option.ne_none_iff_exists'.mp hlt
  obtain ⟨sel, hsel', hls''⟩ := Option.bind_eq_some.mp hls'
  exact ⟨lo, sel, ls, lt, hlo', hsel', hls'', hlt'⟩

theorem renderedContainers_length {σ : Type} (env : Env σ) (r : Renderer σ)
    (cs : List Container) : (renderedContainers env r cs).length = cs.length := by
  match cs with
  | [] => rfl
  | [_] => rfl
  | _ :: _ :: _ => simp [renderedContainers]

theorem renderedContainers_getElem? {σ : Type} (env : Env σ) (r : Renderer σ)
    (cs : List Container) (hcs : 2 ≤ cs.length) (i : Nat) (c : Container)
    (hc : cs[i]? = some c) :
    (renderedContainers env r cs)[i]? =
      some (if i = 0 then renderedContainer0 env r c
        else if i = 1 then renderedContainer1 env r c else c) := by
  match cs, hcs with
  | c0 :: c1 :: cs, _ =>
    match i with
    | 0 => simp_all [renderedContainers]
    | 1 => simp_all [renderedContainers]
    | i + 2 => simp_all [renderedContainers]

theorem renderProxyDeployment_returned_of {σ : Type} (env : Env σ) (r : Renderer σ)
    (res : Resource) (s s1 s' : σ) (u : Unstructured) (dep : Deployment) (out : Unstructured)
    (hrd : env.renderDeployments r.cr res s = (.returned (some u, none), s1))
    (hfrom : env.FromUnstructured u.Object (env.GetK8sObj u.GetKind) =
      .returned (.deployment dep, none))
    (h : renderProxyDeployment env r res s = (.returned (some out, none), s')) :
    s' = s1 ∧ deploymentReady dep ∧
      env.ToUnstructured (.deployment (renderedDeployment env r dep)) =
        .returned (out.Object, none) := by
  obtain ⟨u', dep', hrd', hfrom', hready, hto⟩ := renderProxyDeployment_returned env r res s s' out h
  rw [hrd] at hrd'
  simp only [Prod.mk.injEq, Outcome.returned.injEq, Option.some.injEq, and_true] at hrd'
  obtain ⟨hu, hs⟩ := hrd'
  subst hu hs
  rw [hfrom] at hfrom'
  simp only [Outcome.returned.injEq, Prod.mk.injEq, K8sObj.deployment.injEq, and_true] at hfrom'
  subst hfrom'
  exact ⟨rfl, hready, hto⟩

/-! ## The claims on the deployment transform -/

/-- C4: when `renderProxyDeployment` succeeds, its output is the serialisation of a typed
deployment whose object labels, selector match-labels and pod-template labels all map the
ownership key `GetCrLabelKey` to the name of the owning custom resource. -/
theorem renderProxyDeployment_ownership_labels {σ : Type} (env : Env σ) (r : Renderer σ)
    (res : Resource) (s s' : σ) (out : Unstructured)
    (h : renderProxyDeployment env r res s = (.returned (some out, none), s')) :
    ∃ u dep dep' sel,
      env.renderDeployments r.cr res s = (.returned (some u, none), s') ∧
      env.FromUnstructured u.Object (env.GetK8sObj u.GetKind) =
        .returned (.deployment dep, none) ∧
      renderProxyDeploymentTyped env r dep = .returned dep' ∧
      env.ToUnstructured (.deployment dep') = .returned (out.Object, none) ∧
      dep'.Spec.Selector = some sel ∧
      mapIndex dep'.ObjectMeta.Labels env.GetCrLabelKey = some r.cr.Name ∧
      mapIndex sel.MatchLabels env.GetCrLabelKey = some r.cr.Name ∧
      mapIndex dep'.Spec.Template.ObjectMeta.Labels env.GetCrLabelKey = some r.cr.Name := by
  obtain ⟨u, dep, hrd, hfrom, hready, hto⟩ := renderProxyDeployment_returned env r res s s' out h
  obtain ⟨lo, sel, ls, lt, hlo, hsel, hls, hlt⟩ := deploymentReady_labels dep hready
  refine ⟨u, dep, renderedDeployment env r dep,
    { sel with MatchLabels := sel.MatchLabels.map (assocSet env.GetCrLabelKey r.cr.Name) },
    hrd, hfrom, renderProxyDeploymentTyped_of_ready env r dep hready, hto, ?_, ?_, ?_, ?_⟩
  · simp [renderedDeployment, hsel]
  · simp [renderedDeployment, hlo, mapIndex, assocGet_assocSet_self]
  · simp [hls, mapIndex, assocGet_assocSet_self]
  · simp [renderedDeployment, hlt, mapIndex, assocGet_assocSet_self]

theorem renderProxyDeployment_ownership_labels_witness :
    renderProxyDeployment Demo.env Demo.renderer Demo.template 0 =
      (.returned (some Demo.renderedTemplate, none), 0) ∧
    ∃ u dep dep' sel,
      Demo.env.renderDeployments Demo.renderer.cr Demo.template 0 =
        (.returned (some u, none), 0) ∧
      Demo.env.FromUnstructured u.Object (Demo.env.GetK8sObj u.GetKind) =
        .returned (.deployment dep, none) ∧
      renderProxyDeploymentTyped Demo.env Demo.renderer dep = .returned dep' ∧
      Demo.env.ToUnstructured (.deployment dep') =
        .returned (Demo.renderedTemplate.Object, none) ∧
      dep'.Spec.Selector = some sel ∧
      mapIndex dep'.ObjectMeta.Labels "observability.open-cluster-management.io/name" =
        some "observability" ∧
      mapIndex sel.MatchLabels "observability.open-cluster-management.io/name" =
        some "observability" ∧
      mapIndex dep'.Spec.Template.ObjectMeta.Labels
        "observability.open-cluster-management.io/name" = some "observability" :=
  ⟨rfl, renderProxyDeployment_ownership_labels Demo.env Demo.renderer Demo.template 0 0
    Demo.renderedTemplate rfl⟩

/-- C5, as amended: when `renderProxyDeployment` succeeds, the output keeps the container list
in length and order; the argument lists of containers 0 and 1 are the input lists with
`strings.Replace(arg, token, namespace, 1)` applied to each argument, in order; every
container from index 2 on is unchanged. The replacement leaves an argument without the token
as it is and replaces exactly the first occurrence of the token otherwise. -/
theorem renderProxyDeployment_args {σ : Type} (env : Env σ) (r : Renderer σ)
    (res : Resource) (s s1 s' : σ) (u : Unstructured) (dep : Deployment) (out : Unstructured)
    (hrd : env.renderDeployments r.cr res s = (.returned (some u, none), s1))
    (hfrom : env.FromUnstructured u.Object (env.GetK8sObj u.GetKind) =
      .returned (.deployment dep, none))
    (h : renderProxyDeployment env r res s = (.returned (some out, none), s')) :
    ∃ dep',
      renderProxyDeploymentTyped env r dep = .returned dep' ∧
      env.ToUnstructured (.deployment dep') = .returned (out.Object, none) ∧
      dep'.Spec.Template.Spec.Containers.length = dep.Spec.Template.Spec.Containers.length ∧
      (∀ (i : Nat) (c : Container), dep.Spec.Template.Spec.Containers[i]? = some c →
        ∃ c', dep'.Spec.Template.Spec.Containers[i]? = some c' ∧
          (i < 2 → c'.Args = c.Args.map
            (fun arg => stringsReplace1 arg mcoNamespaceToken env.GetDefaultNamespace)) ∧
          (2 ≤ i → c' = c)) ∧
      (∀ arg : String, ¬ mcoNamespaceToken.data <:+: arg.data →
        stringsReplace1 arg mcoNamespaceToken env.GetDefaultNamespace = arg) ∧
      (∀ (arg : String) (pre post : List Char),
        arg.data = pre ++ mcoNamespaceToken.data ++ post →
        (∀ pre' post', arg.data = pre' ++ mcoNamespaceToken.data ++ post' →
          pre.length ≤ pre'.length) →
        (stringsReplace1 arg mcoNamespaceToken env.GetDefaultNamespace).data =
          pre ++ env.GetDefaultNamespace.data ++ post) := by
  obtain ⟨-, hready, hto⟩ := renderProxyDeployment_returned_of env r res s s1 s' u dep out hrd hfrom h
  refine ⟨renderedDeployment env r dep, renderProxyDeploymentTyped_of_ready env r dep hready,
    hto, ?_, ?_, ?_, ?_⟩
  · simp [renderedDeployment, renderedContainers_length]
  · intro i c hc
    refine ⟨_, renderedContainers_getElem? env r _ hready.2.2.2.1 i c hc, ?_, ?_⟩
    · intro hi
      match i, hi with
      | 0, _ => simp [renderedContainer0]
      | 1, _ => simp [renderedContainer1]
    · intro hi
      have h0 : i ≠ 0 := by omega
      have h1 : i ≠ 1 := by omega
      simp [h0, h1]
  · intro arg hno
    simp only [stringsReplace1, replaceFirst_of_not_infix _ _ _ hno]
  · intro arg pre post harg hmin
    simp only [stringsReplace1, harg]
    exact replaceFirst_first_occurrence _ _ pre post (by rw [← harg]; exact hmin)

theorem renderProxyDeployment_args_witness :
    (Demo.deployment.Spec.Template.Spec.Containers.map (fun c => c.Args) =
      [["--listen-address=0.0.0.0:8080",
        "--metrics-server=https://observatorium.\x7b\x7bMCO_NAMESPACE\x7d\x7d.svc:8080"],
       ["--provider=openshift", "--openshift-sar=\x7b\x7bMCO_NAMESPACE\x7d\x7d"]]) ∧
    ∃ dep',
      renderProxyDeploymentTyped Demo.env Demo.renderer Demo.deployment = .returned dep' ∧
      Demo.env.ToUnstructured (.deployment dep') =
        .returned (Demo.renderedTemplate.Object, none) ∧
      dep'.Spec.Template.Spec.Containers.length = 2 ∧
      (∀ (i : Nat) (c : Container), Demo.deployment.Spec.Template.Spec.Containers[i]? = some c →
        ∃ c', dep'.Spec.Template.Spec.Containers[i]? = some c' ∧
          (i < 2 → c'.Args = c.Args.map (fun arg => stringsReplace1 arg mcoNamespaceToken
            "open-cluster-management-observability")) ∧
          (2 ≤ i → c' = c)) :=
  ⟨rfl,
    match renderProxyDeployment_args Demo.env Demo.renderer Demo.template 0 0 0
      { Object := Demo.template.Map } Demo.deployment Demo.renderedTemplate rfl rfl rfl with
    | ⟨dep', htyped, hto, hlen, hargs, _, _⟩ => ⟨dep', htyped, hto, hlen, hargs⟩⟩

/-- C5, as stated, fails on a third container: the transform leaves its argument, which
holds the token, as it is. -/
theorem renderProxyDeployment_args_counterexample :
    renderProxyDeployment Demo.env Demo.renderer Demo.templateThree 0 =
      (.returned (some Demo.renderedThree, none), 0) ∧
    ((Demo.decodeDeployment Demo.templateThree.Map).Spec.Template.Spec.Containers[2]?).map
        (fun c => c.Args) = some ["--namespace=\x7b\x7bMCO_NAMESPACE\x7d\x7d"] ∧
    ((Demo.decodeDeployment Demo.renderedThree.Object).Spec.Template.Spec.Containers[2]?).map
        (fun c => c.Args) = some ["--namespace=\x7b\x7bMCO_NAMESPACE\x7d\x7d"] ∧
    stringsReplace1 "--namespace=\x7b\x7bMCO_NAMESPACE\x7d\x7d" mcoNamespaceToken
        Demo.env.GetDefaultNamespace = "--namespace=open-cluster-management-observability" ∧
    ((Demo.decodeDeployment Demo.renderedThree.Object).Spec.Template.Spec.Containers[2]?).map
        (fun c => c.Args) ≠
      ((Demo.decodeDeployment Demo.templateThree.Map).Spec.Template.Spec.Containers[2]?).map
        (fun c => c.Args.map (fun arg => stringsReplace1 arg mcoNamespaceToken
          Demo.env.GetDefaultNamespace)) :=
  ⟨rfl, rfl, rfl, rfl, by decide⟩

/-- Whenever `renderProxyDeployment` succeeds, the typed deployment it serialises carries the
literal `blue0/rbac-query-proxy:2.3.0` as the image of container 0, and as the image of
container 1 the override `ReplaceImage` found for it, or else the image of the input. -/
theorem renderProxyDeployment_images {σ : Type} (env : Env σ) (r : Renderer σ)
    (res : Resource) (s s' : σ) (out : Unstructured)
    (h : renderProxyDeployment env r res s = (.returned (some out, none), s')) :
    ∃ u dep dep' c0 c1 c0' c1',
      env.renderDeployments r.cr res s = (.returned (some u, none), s') ∧
      env.FromUnstructured u.Object (env.GetK8sObj u.GetKind) =
        .returned (.deployment dep, none) ∧
      renderProxyDeploymentTyped env r dep = .returned dep' ∧
      env.ToUnstructured (.deployment dep') = .returned (out.Object, none) ∧
      dep.Spec.Template.Spec.Containers[0]? = some c0 ∧
      dep.Spec.Template.Spec.Containers[1]? = some c1 ∧
      dep'.Spec.Template.Spec.Containers[0]? = some c0' ∧
      dep'.Spec.Template.Spec.Containers[1]? = some c1' ∧
      c0'.Image = "blue0/rbac-query-proxy:2.3.0" ∧
      c1'.Image =
        (if (env.ReplaceImage none env.OauthProxyImgRepo env.OauthProxyKey).1
          then (env.ReplaceImage none env.OauthProxyImgRepo env.OauthProxyKey).2
          else c1.Image) := by
  obtain ⟨u, dep, hrd, hfrom, hready, hto⟩ := renderProxyDeployment_returned env r res s s' out h
  have hlen := hready.2.2.2.1
  match hcs : dep.Spec.Template.Spec.Containers, hlen with
  | c0 :: c1 :: cs, _ =>
    exact ⟨u, dep, renderedDeployment env r dep, c0, c1, renderedContainer0 env r c0,
      renderedContainer1 env r c1, hrd, hfrom,
      renderProxyDeploymentTyped_of_ready env r dep hready, hto, by simp [hcs], by simp [hcs],
      by simp [renderedDeployment, renderedContainers, hcs],
      by simp [renderedDeployment, renderedContainers, hcs], rfl, rfl⟩

/-- C7: the code breaks the claim both ways. In every environment a successful
`renderProxyDeployment` leaves the literal `blue0/rbac-query-proxy:2.3.0` of line 85 as the
image of container 0, while container 1 does get the override found for it or keeps its own
image. On the template below, whose container 0 carries
`quay.io/open-cluster-management/rbac-query-proxy:2.2.0`: with `ReplaceImage` reporting the
override `quay.io/custom/rbac-query-proxy:test` the output image is not that override, and
with `ReplaceImage` reporting nothing found the output image is not the image of the
template. -/
theorem renderProxyDeployment_primary_image_overwritten :
    (∀ (σ : Type) (env : Env σ) (r : Renderer σ) (res : Resource) (s s' : σ)
        (out : Unstructured),
      renderProxyDeployment env r res s = (.returned (some out, none), s') →
      ∃ u dep dep' c0 c1 c0' c1',
        env.renderDeployments r.cr res s = (.returned (some u, none), s') ∧
        env.FromUnstructured u.Object (env.GetK8sObj u.GetKind) =
          .returned (.deployment dep, none) ∧
        renderProxyDeploymentTyped env r dep = .returned dep' ∧
        env.ToUnstructured (.deployment dep') = .returned (out.Object, none) ∧
        dep.Spec.Template.Spec.Containers[0]? = some c0 ∧
        dep.Spec.Template.Spec.Containers[1]? = some c1 ∧
        dep'.Spec.Template.Spec.Containers[0]? = some c0' ∧
        dep'.Spec.Template.Spec.Containers[1]? = some c1' ∧
        c0'.Image = "blue0/rbac-query-proxy:2.3.0" ∧
        c1'.Image =
          (if (env.ReplaceImage none env.OauthProxyImgRepo env.OauthProxyKey).1
            then (env.ReplaceImage none env.OauthProxyImgRepo env.OauthProxyKey).2
            else c1.Image)) ∧
    ((Demo.decodeDeployment Demo.template.Map).Spec.Template.Spec.Containers[0]?).map
        (fun c => c.Image) = some "quay.io/open-cluster-management/rbac-query-proxy:2.2.0" ∧
    Demo.env.ReplaceImage Demo.renderer.cr.Annotations
        "quay.io/open-cluster-management/rbac-query-proxy:2.2.0" Demo.env.RBACQueryProxyKey =
      (true, "quay.io/custom/rbac-query-proxy:test") ∧
    renderProxyDeployment Demo.env Demo.renderer Demo.template 0 =
      (.returned (some Demo.renderedTemplate, none), 0) ∧
    ((Demo.decodeDeployment Demo.renderedTemplate.Object).Spec.Template.Spec.Containers[0]?).map
        (fun c => c.Image) = some "blue0/rbac-query-proxy:2.3.0" ∧
    Demo.env.ReplaceImage Demo.rendererPlain.cr.Annotations
        "quay.io/open-cluster-management/rbac-query-proxy:2.2.0" Demo.env.RBACQueryProxyKey =
      (false, "") ∧
    renderProxyDeployment Demo.env Demo.rendererPlain Demo.template 0 =
      (.returned (some Demo.renderedPlain, none), 0) ∧
    ((Demo.decodeDeployment Demo.renderedPlain.Object).Spec.Template.Spec.Containers[0]?).map
        (fun c => c.Image) = some "blue0/rbac-query-proxy:2.3.0" :=
  ⟨fun _ env r res s s' out h => renderProxyDeployment_images env r res s s' out h,
    rfl, rfl, rfl, rfl, rfl, rfl, rfl⟩

/-- C8: a deployment document without containers, and one with a single container, make
`renderProxyDeployment` panic on the index expressions `spec.Containers[0]` and
`spec.Containers[1]`; it returns no error value, and `renderProxyTemplates` on a batch holding
such a document panics as well instead of returning the empty sequence and an error. -/
theorem renderProxyDeployment_missing_containers :
    (∀ (σ : Type) (env : Env σ) (r : Renderer σ) (res : Resource) (s s1 : σ)
        (u : Unstructured) (dep : Deployment),
      env.renderDeployments r.cr res s = (.returned (some u, none), s1) →
      env.FromUnstructured u.Object (env.GetK8sObj u.GetKind) =
        .returned (.deployment dep, none) →
      dep.Spec.Template.Spec.Containers.length < 2 →
      renderProxyDeployment env r res s = (.crash, s1)) ∧
    (Demo.decodeDeployment Demo.templateNone.Map).Spec.Template.Spec.Containers.length = 0 ∧
    renderProxyDeployment Demo.env Demo.renderer Demo.templateNone 0 = (.crash, 0) ∧
    (Demo.decodeDeployment Demo.templateOne.Map).Spec.Template.Spec.Containers.length = 1 ∧
    renderProxyDeployment Demo.env Demo.renderer Demo.templateOne 0 = (.crash, 0) ∧
    renderProxyTemplates Demo.renderer [Demo.unknownTemplate, Demo.templateNone] 0 =
      (.crash, 0) :=
  ⟨fun _ env r res s s1 u dep hrd hfrom hlen =>
      renderProxyDeployment_crash_of_not_ready env r res s s1 u dep hrd hfrom
        (fun hready => absurd hready.2.2.2.1 (by omega)),
    rfl, rfl, rfl, rfl, rfl⟩

/-- C9: when `renderProxyDeployment` succeeds, the output keeps the volume list in length and
order; a volume named `ca-certs` differs from its input only in the secret name, now
`ServerCerts`; a volume named `client-certs` only in the secret name, now `GrafanaCerts`; any
other volume is unchanged. When no volume has either name (the empty list included) the loop
over the volumes returns the list as it is, the typed statements return as soon as the label
maps and two containers are there, and the transform returns whenever the converter does. -/
theorem renderProxyDeployment_volumes {σ : Type} (env : Env σ) (r : Renderer σ)
    (res : Resource) (s s1 : σ) (u : Unstructured) (dep : Deployment)
    (hrd : env.renderDeployments r.cr res s = (.returned (some u, none), s1))
    (hfrom : env.FromUnstructured u.Object (env.GetK8sObj u.GetKind) =
      .returned (.deployment dep, none)) :
    (∀ out s', renderProxyDeployment env r res s = (.returned (some out, none), s') →
      ∃ dep', renderProxyDeploymentTyped env r dep = .returned dep' ∧
        env.ToUnstructured (.deployment dep') = .returned (out.Object, none) ∧
        dep'.Spec.Template.Spec.Volumes.length = dep.Spec.Template.Spec.Volumes.length ∧
        ∀ (i : Nat) (v : Volume), dep.Spec.Template.Spec.Volumes[i]? = some v →
          ∃ v', dep'.Spec.Template.Spec.Volumes[i]? = some v' ∧
            (v.Name = "ca-certs" → ∃ sec, v.Secret = some sec ∧
              v' = { v with Secret := some { sec with SecretName := env.ServerCerts } }) ∧
            (v.Name = "client-certs" → ∃ sec, v.Secret = some sec ∧
              v' = { v with Secret := some { sec with SecretName := env.GrafanaCerts } }) ∧
            (v.Name ≠ "ca-certs" → v.Name ≠ "client-certs" → v' = v)) ∧
    ((∀ v ∈ dep.Spec.Template.Spec.Volumes, v.Name ≠ "ca-certs" ∧ v.Name ≠ "client-certs") →
      renderProxyVolumes env dep.Spec.Template.Spec.Volumes =
        .returned dep.Spec.Template.Spec.Volumes ∧
      (dep.ObjectMeta.Labels ≠ none →
        (∃ sel, dep.Spec.Selector = some sel ∧ sel.MatchLabels ≠ none) →
        dep.Spec.Template.ObjectMeta.Labels ≠ none →
        2 ≤ dep.Spec.Template.Spec.Containers.length →
        ∃ dep', renderProxyDeploymentTyped env r dep = .returned dep' ∧
          dep'.Spec.Template.Spec.Volumes = dep.Spec.Template.Spec.Volumes ∧
          ∀ o, env.ToUnstructured (.deployment dep') = .returned (o, none) →
            renderProxyDeployment env r res s = (.returned (some { Object := o }, none), s1))) := by
  constructor
  · intro out s' h
    obtain ⟨-, hready, hto⟩ :=
      renderProxyDeployment_returned_of env r res s s1 s' u dep out hrd hfrom h
    refine ⟨renderedDeployment env r dep, renderProxyDeploymentTyped_of_ready env r dep hready,
      hto, by simp [renderedDeployment], ?_⟩
    intro i v hv
    have hmem : v ∈ dep.Spec.Template.Spec.Volumes := List.getElem?_mem hv
    have hsec := hready.2.2.2.2 v hmem
    refine ⟨renderedVolume env v, by simp [renderedDeployment, hv], ?_, ?_, ?_⟩
    · intro hn
      obtain ⟨sec, hsec'⟩ := Option.ne_none_iff_exists'.mp (hsec (Or.inl hn))
      exact ⟨sec, hsec', by simp [renderedVolume, hn, hsec']⟩
    · intro hn
      obtain ⟨sec, hsec'⟩ := Option.ne_none_iff_exists'.mp (hsec (Or.inr hn))
      have hne : v.Name ≠ "ca-certs" := by rw [hn]; decide
      exact ⟨sec, hsec', by simp [renderedVolume, hn, hsec']⟩
    · intro h1 h2
      simp [renderedVolume, h1, h2]
  · intro hnames
    have hvr : volumesReady dep.Spec.Template.Spec.Volumes := by
      intro v hv hn
      rcases hn with hn | hn
      · exact absurd hn (hnames v hv).1
      · exact absurd hn (hnames v hv).2
    have hsame : dep.Spec.Template.Spec.Volumes.map (renderedVolume env) =
        dep.Spec.Template.Spec.Volumes := by
      conv_rhs => rw [← List.map_id dep.Spec.Template.Spec.Volumes]
      apply List.map_congr_left
      intro v hv
      simp [renderedVolume, (hnames v hv).1, (hnames v hv).2]
    refine ⟨by rw [renderProxyVolumes_of_ready env _ hvr, hsame], ?_⟩
    intro hlo hsel hlt hcs
    have hready : deploymentReady dep := by
      obtain ⟨sel, hsel', hls⟩ := hsel
      exact ⟨hlo, by simpa [hsel'] using hls, hlt, hcs, hvr⟩
    refine ⟨renderedDeployment env r dep, renderProxyDeploymentTyped_of_ready env r dep hready,
      by simp [renderedDeployment, hsame], ?_⟩
    intro o hto
    exact renderProxyDeployment_of_ready env r res s s1 u dep o hrd hfrom hready hto

theorem renderProxyDeployment_volumes_witness :
    (Demo.deployment.Spec.Template.Spec.Volumes.map
        (fun v => (v.Name, v.Secret.map (fun sec => sec.SecretName))) =
      [("ca-certs", some "placeholder"), ("client-certs", some "placeholder"),
        ("other", some "kept")]) ∧
    (∃ dep', renderProxyDeploymentTyped Demo.env Demo.renderer Demo.deployment =
        .returned dep' ∧
      Demo.env.ToUnstructured (.deployment dep') =
        .returned (Demo.renderedTemplate.Object, none) ∧
      dep'.Spec.Template.Spec.Volumes.length = 3 ∧
      ∀ (i : Nat) (v : Volume), Demo.deployment.Spec.Template.Spec.Volumes[i]? = some v →
        ∃ v', dep'.Spec.Template.Spec.Volumes[i]? = some v' ∧
          (v.Name = "ca-certs" → ∃ sec, v.Secret = some sec ∧
            v' = { v with Secret := some { sec with
              SecretName := "observability-server-certs" } }) ∧
          (v.Name = "client-certs" → ∃ sec, v.Secret = some sec ∧
            v' = { v with Secret := some { sec with
              SecretName := "observability-grafana-certs" } }) ∧
          (v.Name ≠ "ca-certs" → v.Name ≠ "client-certs" → v' = v)) ∧
    (Demo.decodeDeployment Demo.templateThree.Map).Spec.Template.Spec.Volumes.length = 0 ∧
    renderProxyVolumes Demo.env
        (Demo.decodeDeployment Demo.templateThree.Map).Spec.Template.Spec.Volumes =
      .returned (Demo.decodeDeployment Demo.templateThree.Map).Spec.Template.Spec.Volumes :=
  ⟨rfl, (renderProxyDeployment_volumes Demo.env Demo.renderer Demo.template 0 0
    { Object := Demo.template.Map } Demo.deployment rfl rfl).1 Demo.renderedTemplate 0 rfl,
    rfl, ((renderProxyDeployment_volumes Demo.env Demo.renderer Demo.templateThree 0 0
    { Object := Demo.templateThree.Map } (Demo.decodeDeployment Demo.templateThree.Map)
    rfl rfl).2 (by decide)).1⟩

/-- C10: let `renderProxyDeployment` succeed, `dep1` being the typed deployment it serialises,
and let it succeed again on its own output with the same renderer. When reading the first
output back gives the three label maps of `dep1`, the typed deployment the second run
serialises has the same three label maps as `dep1`: the label assignment is idempotent. -/
theorem renderProxyDeployment_labels_idempotent {σ : Type} (env : Env σ) (r : Renderer σ)
    (res : Resource) (s s1 s2 : σ) (u1 u2 out1 out2 : Unstructured)
    (dep0 dep1 d2 : Deployment)
    (hrd1 : env.renderDeployments r.cr res s = (.returned (some u1, none), s1))
    (hfrom1 : env.FromUnstructured u1.Object (env.GetK8sObj u1.GetKind) =
      .returned (.deployment dep0, none))
    (htyped1 : renderProxyDeploymentTyped env r dep0 = .returned dep1)
    (h1 : renderProxyDeployment env r res s = (.returned (some out1, none), s1))
    (hrd2 : env.renderDeployments r.cr { kunstructured := out1.Object } s1 =
      (.returned (some u2, none), s2))
    (hfrom2 : env.FromUnstructured u2.Object (env.GetK8sObj u2.GetKind) =
      .returned (.deployment d2, none))
    (hread : labelMaps d2 = labelMaps dep1)
    (h2 : renderProxyDeployment env r { kunstructured := out1.Object } s1 =
      (.returned (some out2, none), s2)) :
    env.ToUnstructured (.deployment dep1) = .returned (out1.Object, none) ∧
    ∃ dep2, renderProxyDeploymentTyped env r d2 = .returned dep2 ∧
      env.ToUnstructured (.deployment dep2) = .returned (out2.Object, none) ∧
      labelMaps dep2 = labelMaps dep1 := by
  obtain ⟨hready0, hdep1⟩ := renderProxyDeploymentTyped_returned env r dep0 dep1 htyped1
  obtain ⟨-, -, hto1⟩ :=
    renderProxyDeployment_returned_of env r res s s1 s1 u1 dep0 out1 hrd1 hfrom1 h1
  obtain ⟨-, hready2, hto2⟩ :=
    renderProxyDeployment_returned_of env r _ s1 s2 s2 u2 d2 out2 hrd2 hfrom2 h2
  subst hdep1
  refine ⟨hto1, renderedDeployment env r d2,
    renderProxyDeploymentTyped_of_ready env r d2 hready2, hto2, ?_⟩
  obtain ⟨lo, sel, ls, lt, hlo, hsel, hls, hlt⟩ := deploymentReady_labels dep0 hready0
  obtain ⟨lo2, sel2, ls2, lt2, hlo2, hsel2, hls2, hlt2⟩ := deploymentReady_labels d2 hready2
  simp only [labelMaps, renderedDeployment, hlo, hsel, hls, hlt, hlo2, hsel2, hls2, hlt2,
    Option.map_some', Prod.mk.injEq, Option.some.injEq] at hread ⊢
  obtain ⟨ha, hb, hc⟩ := hread
  subst ha hb hc
  simp [assocSet_assocSet_self]

theorem renderProxyDeployment_labels_idempotent_witness :
    labelMaps (renderedDeployment Demo.env Demo.renderer Demo.deployment) =
      (some [("app", "rbac-query-proxy"),
          ("observability.open-cluster-management.io/name", "observability")],
        some (some [("app", "rbac-query-proxy"),
          ("observability.open-cluster-management.io/name", "observability")]),
        some [("app", "rbac-query-proxy"),
          ("observability.open-cluster-management.io/name", "observability")]) ∧
    Demo.env.ToUnstructured
        (.deployment (renderedDeployment Demo.env Demo.renderer Demo.deployment)) =
      .returned (Demo.renderedTemplate.Object, none) ∧
    ∃ dep2, renderProxyDeploymentTyped Demo.env Demo.renderer Demo.deploymentAgain =
        .returned dep2 ∧
      Demo.env.ToUnstructured (.deployment dep2) = .returned (Demo.renderedAgain.Object, none) ∧
      labelMaps dep2 = labelMaps (renderedDeployment Demo.env Demo.renderer Demo.deployment) :=
  ⟨rfl, renderProxyDeployment_labels_idempotent Demo.env Demo.renderer Demo.template 0 0 0
    { Object := Demo.template.Map } { Object := Demo.renderedTemplate.Object }
    Demo.renderedTemplate Demo.renderedAgain Demo.deployment
    (renderedDeployment Demo.env Demo.renderer Demo.deployment) Demo.deploymentAgain
    rfl rfl rfl rfl rfl rfl rfl rfl⟩

/-! ## The claim on the secret transform -/

/-- C6: let `renderNamespace` return the document `u`. When the name of `u` is not
`rbac-proxy-cookie-secret`, `renderProxySecret` returns exactly what `renderNamespace`
returned, in the world state it left: nothing is added and the password generator is not
called. When the name is `rbac-proxy-cookie-secret` and `renderProxySecret` succeeds, its
output is the serialisation of the typed secret with the bytes of the password that
`GeneratePassword(16)` returned stored under `session_secret`. -/
theorem renderProxySecret_session_secret {σ : Type} (env : Env σ) (r : Renderer σ)
    (res : Resource) (s s1 : σ) (u : Unstructured)
    (hns : env.renderNamespace r.cr res s = (.returned (some u, none), s1)) :
    (u.GetName ≠ "rbac-proxy-cookie-secret" →
      renderProxySecret env r res s = (.returned (some u, none), s1)) ∧
    (u.GetName = "rbac-proxy-cookie-secret" → ∀ out s',
      renderProxySecret env r res s = (.returned (some out, none), s') →
      ∃ srt entries p,
        env.FromUnstructured u.Object (env.GetK8sObj u.GetKind) =
          .returned (.secret srt, none) ∧
        srt.Data = some entries ∧
        env.GeneratePassword 16 s1 = (.returned (p, none), s') ∧
        env.ToUnstructured (.secret { srt with
            Data := some (assocSet "session_secret" (bytesOf p) entries) }) =
          .returned (out.Object, none) ∧
        assocGet "session_secret" (assocSet "session_secret" (bytesOf p) entries) =
          some (bytesOf p)) := by
  constructor
  · intro hname
    simp [renderProxySecret, hns, hname]
  · intro hname out s' h
    simp only [renderProxySecret, hns, hname, if_true] at h
    split at h
    · simp at h
    · simp at h
    · rename_i obj hfrom
      split at h
      · rename_i srt
        split at h
        · simp at h
        · simp at h
        · rename_i p s2 hgen
          split at h
          · simp at h
          · rename_i data hassign
            cases hd : srt.Data with
            | none => simp [mapAssign, hd] at hassign
            | some entries =>
              simp only [mapAssign, hd, Outcome.returned.injEq] at hassign
              subst hassign
              split at h
              · simp at h
              · simp at h
              · rename_i o hto
                simp only [Prod.mk.injEq, Outcome.returned.injEq, Option.some.injEq,
                  and_true] at h
                obtain ⟨hout, hs⟩ := h
                subst hout hs
                exact ⟨srt, entries, p, hfrom, hd, hgen, hto, assocGet_assocSet_self _ _ _⟩
      · simp at h

theorem renderProxySecret_session_secret_witness :
    renderProxySecret Demo.env Demo.renderer (Demo.secretTemplate "other-secret") 0 =
      (.returned (some { Object := (Demo.secretTemplate "other-secret").Map }, none), 0) ∧
    ∃ srt entries p,
      Demo.env.FromUnstructured (Demo.secretTemplate "rbac-proxy-cookie-secret").Map
          (Demo.env.GetK8sObj "Secret") = .returned (.secret srt, none) ∧
      srt.Data = some entries ∧
      Demo.env.GeneratePassword 16 0 = (.returned (p, none), 1) ∧
      Demo.env.ToUnstructured (.secret { srt with
          Data := some (assocSet "session_secret" (bytesOf p) entries) }) =
        .returned (Demo.renderedCookie.Object, none) ∧
      assocGet "session_secret" (assocSet "session_secret" (bytesOf p) entries) =
        some (bytesOf p) :=
  ⟨(renderProxySecret_session_secret Demo.env Demo.renderer
      (Demo.secretTemplate "other-secret") 0 0
      { Object := (Demo.secretTemplate "other-secret").Map } rfl).1 (by decide),
    (renderProxySecret_session_secret Demo.env Demo.renderer
      (Demo.secretTemplate "rbac-proxy-cookie-secret") 0 0
      { Object := (Demo.secretTemplate "rbac-proxy-cookie-secret").Map } rfl).2 rfl
      Demo.renderedCookie 1 rfl⟩

end Rendering
